import Mathlib

/-!
Verification development for the Research-Thinking-Agent pipeline
(`src/rta`).  Python source functions are shallowly embedded as Lean
definitions; external collaborators (the Gemini generation capability,
`json.loads`/pydantic parsing, HTTP sources, the file system) are modelled
as explicit parameters whose outcomes the theorems quantify over.
-/

namespace RTA

/-! ## Python string primitives

`str.strip()`, `str.lower()` and friends, restricted to the ASCII
whitespace set Python treats as whitespace (space, tab, LF, CR, VT, FF).
-/

/-- The characters Python's `str.strip()` / regex `\s` treat as whitespace
(ASCII fragment). -/
def isPyWs (c : Char) : Bool :=
  c = ' ' || c = '\t' || c = '\n' || c = '\r' ||
  c = Char.ofNat 11 || c = Char.ofNat 12

/-- Python `s.strip()`: drop leading and trailing whitespace. -/
def pyStrip (s : String) : String :=
  String.mk (((s.data.dropWhile isPyWs).reverse.dropWhile isPyWs).reverse)

/-- Python `s.lower()` (ASCII). -/
def pyLower (s : String) : String :=
  String.mk (s.data.map Char.toLower)

/-- Char-list prefix test `startsWithChars hay needle`. -/
def startsWithChars : List Char → List Char → Bool
  | _, [] => true
  | [], _ :: _ => false
  | h :: t, n :: ns => h = n && startsWithChars t ns

/-- Python `needle in hay` for strings: substring containment. -/
def containsChars : List Char → List Char → Bool
  | [], n => n.isEmpty
  | h :: t, n => startsWithChars (h :: t) n || containsChars t n

/-! ## Data model (from `src/rta/schemas/reasoning.py`)

The pydantic models used by the reasoning stage and its validator.
`confidence` (a Python float constrained to `[0,1]`) is modelled as `ℚ`.
-/

/-- Model of `Evidence` (reasoning.py): one citation inside a claim. -/
structure Evidence where
  paper_id : String
  evidence : String
deriving DecidableEq

/-- Model of `ClusteredPaper` (reasoning.py). -/
structure ClusteredPaper where
  paper_id : String
  title : String
  why_included : String
deriving DecidableEq

/-- Model of `Cluster` (reasoning.py).  `time_span : Dict[str, int]` is modelled as
an association list. -/
structure Cluster where
  cluster_id : String
  cluster_name : String
  description : String
  papers : List ClusteredPaper
  key_methods : List String := []
  time_span : List (String × Int) := []
deriving DecidableEq

/-- The `claim_type` literal enum of `ReasoningClaim`. -/
inductive ClaimType
  | trend | comparison | limitation | consensus
deriving DecidableEq

/-- Model of `ReasoningClaim` (reasoning.py). -/
structure ReasoningClaim where
  claim_id : String
  claim_type : ClaimType
  statement : String
  supporting_papers : List String := []
  evidence : List Evidence := []
  confidence : ℚ
deriving DecidableEq

/-- Model of `ResearchGap` (reasoning.py). -/
structure ResearchGap where
  gap_id : String
  description : String
  related_clusters : List String := []
  supporting_papers : List String := []
  significance : String := ""
deriving DecidableEq

/-- Model of `ReasoningResult` (reasoning.py). `meta : Dict[str, str]` as an
association list. -/
structure ReasoningResult where
  clusters : List Cluster := []
  claims : List ReasoningClaim := []
  research_gaps : List ResearchGap := []
  meta : List (String × String) := []
deriving DecidableEq

/-! ## EvidenceValidator (from `src/rta/validators/reasoning_validator.py`)

`validate_reasoning` walks claims then gaps and raises `ValueError` at the
first reference that is not in `valid_paper_ids` (resp. not a cluster id of
the same result).  Raising is modelled with `Except String`; the error
string is the `ValueError` message.  The Python `set` membership tests are
modelled with `List.contains` on the (finite) id collections.
-/

/-- A Python `for` loop whose body may `raise`: run `f` over the list in
order, stopping at the first error. -/
def exceptSeq {α : Type} (f : α → Except String Unit) :
    List α → Except String Unit
  | [] => Except.ok ()
  | a :: rest =>
    match f a with
    | Except.error e => Except.error e
    | Except.ok _ => exceptSeq f rest

/-- Body of the claims loop of `validate_reasoning` for one claim:
check `supporting_papers`, then `evidence`, raising at the first
offender. -/
def validateClaim (validIds : List String) (cl : ReasoningClaim) :
    Except String Unit :=
  match cl.supporting_papers.find? (fun pid => !(validIds.contains pid)) with
  | some pid =>
      Except.error (("ReasoningClaim " ++ cl.claim_id ++
        " references unknown paper_id: ") ++ pid)
  | none =>
    match cl.evidence.find? (fun ev => !(validIds.contains ev.paper_id)) with
    | some ev =>
        Except.error (("Evidence references unknown paper_id: ") ++ ev.paper_id)
    | none => Except.ok ()

/-- Body of the gaps loop of `validate_reasoning` for one gap:
check `supporting_papers`, then `related_clusters`. -/
def validateGap (validIds clusterIds : List String) (g : ResearchGap) :
    Except String Unit :=
  match g.supporting_papers.find? (fun pid => !(validIds.contains pid)) with
  | some pid =>
      Except.error (("ResearchGap " ++ g.gap_id ++
        " references unknown paper_id: ") ++ pid)
  | none =>
    match g.related_clusters.find? (fun cid => !(clusterIds.contains cid)) with
    | some cid =>
        Except.error (("ResearchGap " ++ g.gap_id ++
          " references unknown cluster_id: ") ++ cid)
    | none => Except.ok ()

/-- Embedding of `validate_reasoning(result, valid_paper_ids)`: claims in order, then
gaps in order; the first bad reference raises. -/
def validate_reasoning (result : ReasoningResult) (validIds : List String) :
    Except String Unit :=
  let clusterIds := result.clusters.map (fun c => c.cluster_id)
  match exceptSeq (validateClaim validIds) result.claims with
  | Except.error e => Except.error e
  | Except.ok _ => exceptSeq (validateGap validIds clusterIds) result.research_gaps

/-- Spec-side predicate (C2): every claim's supporting/evidence paper ids
are in `validIds`, every gap's supporting ids are in `validIds`, and every
gap's related cluster ids are cluster ids of the same result. -/
def allRefsValid (result : ReasoningResult) (validIds : List String) : Prop :=
  (∀ cl ∈ result.claims,
      (∀ pid ∈ cl.supporting_papers, validIds.contains pid = true) ∧
      (∀ ev ∈ cl.evidence, validIds.contains ev.paper_id = true)) ∧
  (∀ g ∈ result.research_gaps,
      (∀ pid ∈ g.supporting_papers, validIds.contains pid = true) ∧
      (∀ cid ∈ g.related_clusters,
        (result.clusters.map (fun c => c.cluster_id)).contains cid = true))

/-! Helper lemmas for the validator. -/

theorem contains_of_not_find? {β : Type} (key : β → String) {l : List β}
    {ids : List String} {x : β}
    (h : l.find? (fun y => !(ids.contains (key y))) = none) (hx : x ∈ l) :
    ids.contains (key x) = true := by
  have := List.find?_eq_none.mp h x hx
  simpa using this

theorem validateClaim_ok_iff (validIds : List String) (cl : ReasoningClaim) :
    validateClaim validIds cl = Except.ok () ↔
      (∀ pid ∈ cl.supporting_papers, validIds.contains pid = true) ∧
      (∀ ev ∈ cl.evidence, validIds.contains ev.paper_id = true) := by
  unfold validateClaim
  rcases h1 : cl.supporting_papers.find? (fun pid => !(validIds.contains pid)) with _ | pid
  · rcases h2 : cl.evidence.find? (fun ev => !(validIds.contains ev.paper_id)) with _ | ev
    · simp only [h1, h2, true_iff]
      exact ⟨fun pid hpid => contains_of_not_find? (fun y => y) h1 hpid,
             fun ev hev => contains_of_not_find? (fun y => y.paper_id) h2 hev⟩
    · simp only [h1, h2, reduceCtorEq, false_iff, not_and]
      intro _ h
      have hmem := List.mem_of_find?_eq_some h2
      have hbad := List.find?_some h2
      rw [h ev hmem] at hbad
      simp at hbad
  · simp only [h1, reduceCtorEq, false_iff, not_and]
    intro h
    have hmem := List.mem_of_find?_eq_some h1
    have hbad := List.find?_some h1
    rw [h pid hmem] at hbad
    simp at hbad

theorem validateGap_ok_iff (validIds clusterIds : List String) (g : ResearchGap) :
    validateGap validIds clusterIds g = Except.ok () ↔
      (∀ pid ∈ g.supporting_papers, validIds.contains pid = true) ∧
      (∀ cid ∈ g.related_clusters, clusterIds.contains cid = true) := by
  unfold validateGap
  rcases h1 : g.supporting_papers.find? (fun pid => !(validIds.contains pid)) with _ | pid
  · rcases h2 : g.related_clusters.find? (fun cid => !(clusterIds.contains cid)) with _ | cid
    · simp only [h1, h2, true_iff]
      exact ⟨fun pid hpid => contains_of_not_find? (fun y => y) h1 hpid,
             fun cid hcid => contains_of_not_find? (fun y => y) h2 hcid⟩
    · simp only [h1, h2, reduceCtorEq, false_iff, not_and]
      intro _ h
      have hmem := List.mem_of_find?_eq_some h2
      have hbad := List.find?_some h2
      rw [h cid hmem] at hbad
      simp at hbad
  · simp only [h1, reduceCtorEq, false_iff, not_and]
    intro h
    have hmem := List.mem_of_find?_eq_some h1
    have hbad := List.find?_some h1
    rw [h pid hmem] at hbad
    simp at hbad

theorem exceptSeq_ok_iff {α : Type} (f : α → Except String Unit) :
    ∀ (l : List α), exceptSeq f l = Except.ok () ↔ ∀ a ∈ l, f a = Except.ok ()
  | [] => by simp [exceptSeq]
  | a :: rest => by
    unfold exceptSeq
    rcases hf : f a with e | u
    · simp only [hf, reduceCtorEq, false_iff, not_forall]
      refine ⟨a, ?_⟩
      simp [hf]
    · cases u
      simp only [hf]
      rw [exceptSeq_ok_iff f rest]
      constructor
      · intro h b hb
        rcases List.mem_cons.mp hb with rfl | hb
        · exact hf
        · exact h b hb
      · intro h b hb
        exact h b (List.mem_cons_of_mem _ hb)

theorem exceptSeq_error {α : Type} (f : α → Except String Unit) :
    ∀ (l : List α) (msg : String), exceptSeq f l = Except.error msg →
      ∃ a ∈ l, f a = Except.error msg
  | [] => by intro msg h; simp [exceptSeq] at h
  | a :: rest => by
    intro msg h
    unfold exceptSeq at h
    rcases hf : f a with e | u
    · rw [hf] at h
      cases h
      exact ⟨a, by simp, hf⟩
    · cases u
      rw [hf] at h
      rcases exceptSeq_error f rest msg h with ⟨b, hb, hfb⟩
      exact ⟨b, List.mem_cons_of_mem _ hb, hfb⟩

/-- C2 (part): acceptance characterisation of `validate_reasoning`. -/
theorem validate_reasoning_ok_iff (r : ReasoningResult) (validIds : List String) :
    validate_reasoning r validIds = Except.ok () ↔ allRefsValid r validIds := by
  unfold validate_reasoning allRefsValid
  rcases hc : exceptSeq (validateClaim validIds) r.claims with e | u
  · simp only [hc, reduceCtorEq, false_iff, not_and]
    intro h1
    rcases exceptSeq_error _ _ _ hc with ⟨cl, hcl, hbad⟩
    have := (validateClaim_ok_iff validIds cl).mpr (h1 cl hcl)
    rw [this] at hbad; cases hbad
  · cases u
    simp only [hc]
    rw [exceptSeq_ok_iff]
    have hclaims := (exceptSeq_ok_iff (validateClaim validIds) r.claims).mp hc
    constructor
    · intro h
      refine ⟨fun cl hcl => (validateClaim_ok_iff validIds cl).mp (hclaims cl hcl), ?_⟩
      intro g hg
      exact (validateGap_ok_iff _ _ g).mp (h g hg)
    · rintro ⟨_, h2⟩ g hg
      exact (validateGap_ok_iff _ _ g).mpr (h2 g hg)

/-! Spec-side computation of the *first* offending id, in the validator's
traversal order (claims in order, supporting papers before evidence;
then gaps in order, supporting papers before related clusters). -/

/-- First offending id cited by one claim, if any. -/
def firstOffenderClaim (validIds : List String) (cl : ReasoningClaim) :
    Option String :=
  match cl.supporting_papers.find? (fun pid => !(validIds.contains pid)) with
  | some pid => some pid
  | none =>
    (cl.evidence.find? (fun ev => !(validIds.contains ev.paper_id))).map
      (fun ev => ev.paper_id)

/-- First offending id cited by one gap, if any. -/
def firstOffenderGap (validIds clusterIds : List String) (g : ResearchGap) :
    Option String :=
  match g.supporting_papers.find? (fun pid => !(validIds.contains pid)) with
  | some pid => some pid
  | none => g.related_clusters.find? (fun cid => !(clusterIds.contains cid))

/-- The first offending id of a reasoning result, if any. -/
def firstOffendingId (r : ReasoningResult) (validIds : List String) :
    Option String :=
  let clusterIds := r.clusters.map (fun c => c.cluster_id)
  match r.claims.findSome? (firstOffenderClaim validIds) with
  | some pid => some pid
  | none => r.research_gaps.findSome? (firstOffenderGap validIds clusterIds)

theorem validateClaim_ok_iff_offender (validIds : List String) (cl : ReasoningClaim) :
    validateClaim validIds cl = Except.ok () ↔ firstOffenderClaim validIds cl = none := by
  unfold validateClaim firstOffenderClaim
  rcases h1 : cl.supporting_papers.find? (fun pid => !(validIds.contains pid)) with _ | pid
  · rcases h2 : cl.evidence.find? (fun ev => !(validIds.contains ev.paper_id)) with _ | ev
    · rw [h2]; simp
    · rw [h2]; simp
  · simp

theorem validateGap_ok_iff_offender (validIds clusterIds : List String) (g : ResearchGap) :
    validateGap validIds clusterIds g = Except.ok () ↔
      firstOffenderGap validIds clusterIds g = none := by
  unfold validateGap firstOffenderGap
  rcases h1 : g.supporting_papers.find? (fun pid => !(validIds.contains pid)) with _ | pid
  · rcases h2 : g.related_clusters.find? (fun cid => !(clusterIds.contains cid)) with _ | cid
    · simp
    · simp
  · simp

theorem validateClaim_error_names (validIds : List String) (cl : ReasoningClaim)
    (msg : String) (h : validateClaim validIds cl = Except.error msg) :
    ∃ pid, firstOffenderClaim validIds cl = some pid ∧ ∃ pre, msg = pre ++ pid := by
  unfold validateClaim at h
  unfold firstOffenderClaim
  rcases h1 : cl.supporting_papers.find? (fun pid => !(validIds.contains pid)) with _ | pid
  · rcases h2 : cl.evidence.find? (fun ev => !(validIds.contains ev.paper_id)) with _ | ev
    · rw [h1, h2] at h; cases h
    · rw [h1, h2] at h
      cases h
      refine ⟨ev.paper_id, ?_, _, rfl⟩
      rw [h2]
      rfl
  · rw [h1] at h
    cases h
    exact ⟨pid, by simp, _, rfl⟩

theorem validateGap_error_names (validIds clusterIds : List String) (g : ResearchGap)
    (msg : String) (h : validateGap validIds clusterIds g = Except.error msg) :
    ∃ pid, firstOffenderGap validIds clusterIds g = some pid ∧
      ∃ pre, msg = pre ++ pid := by
  unfold validateGap at h
  unfold firstOffenderGap
  rcases h1 : g.supporting_papers.find? (fun pid => !(validIds.contains pid)) with _ | pid
  · rcases h2 : g.related_clusters.find? (fun cid => !(clusterIds.contains cid)) with _ | cid
    · rw [h1, h2] at h; cases h
    · rw [h1, h2] at h
      cases h
      exact ⟨cid, by simp, _, rfl⟩
  · rw [h1] at h
    cases h
    exact ⟨pid, by simp, _, rfl⟩

/-- If each element's success coincides with having no offender, a failing
`exceptSeq` run pins the first offender via `findSome?`. -/
theorem exceptSeq_error_findSome {α : Type} (f : α → Except String Unit)
    (g : α → Option String)
    (hiff : ∀ a, f a = Except.ok () ↔ g a = none) :
    ∀ (l : List α) (msg : String), exceptSeq f l = Except.error msg →
      ∃ pid, l.findSome? g = some pid ∧ ∃ a ∈ l, f a = Except.error msg ∧
        g a = some pid
  | [] => by intro msg h; simp [exceptSeq] at h
  | a :: rest => by
    intro msg h
    unfold exceptSeq at h
    rcases hf : f a with e | u
    · rw [hf] at h
      cases h
      rcases hg : g a with _ | pid
      · rw [← hiff] at hg; rw [hg] at hf; cases hf
      · exact ⟨pid, by simp [List.findSome?_cons, hg], a, by simp, hf, hg⟩
    · cases u
      rw [hf] at h
      have hg : g a = none := (hiff a).mp hf
      rcases exceptSeq_error_findSome f g hiff rest msg h with ⟨pid, hfind, b, hb, hfb, hgb⟩
      exact ⟨pid, by simp [List.findSome?_cons, hg, hfind],
        b, List.mem_cons_of_mem _ hb, hfb, hgb⟩

theorem findSome?_eq_none_of_all {α : Type} (g : α → Option String)
    (l : List α) (h : ∀ a ∈ l, g a = none) : l.findSome? g = none := by
  induction l with
  | nil => simp
  | cons a rest ih =>
    simp only [List.findSome?_cons, h a (by simp)]
    exact ih (fun b hb => h b (List.mem_cons_of_mem _ hb))

/-- C2: `validate_reasoning(reasoning, valid_paper_ids)` returns normally
iff every claim's supporting/evidence paper ids are in `valid_paper_ids`,
every gap's supporting paper ids are in `valid_paper_ids`, and every gap's
related cluster ids are cluster ids of the same result; on any violation it
raises an error whose message names the first offending id (no partial
acceptance, no silent drop). -/
theorem C2_validator_integrity (r : ReasoningResult) (validIds : List String) :
    (validate_reasoning r validIds = Except.ok () ↔ allRefsValid r validIds) ∧
    (∀ msg, validate_reasoning r validIds = Except.error msg →
      ∃ pid, firstOffendingId r validIds = some pid ∧ ∃ pre, msg = pre ++ pid) := by
  refine ⟨validate_reasoning_ok_iff r validIds, ?_⟩
  intro msg h
  unfold validate_reasoning at h
  unfold firstOffendingId
  rcases hc : exceptSeq (validateClaim validIds) r.claims with e | u
  · rw [hc] at h
    cases h
    rcases exceptSeq_error_findSome (validateClaim validIds)
        (firstOffenderClaim validIds) (validateClaim_ok_iff_offender validIds)
        r.claims _ hc with ⟨pid, hfind, a, ha, hfa, hga⟩
    rcases validateClaim_error_names validIds a _ hfa with ⟨pid2, hg2, pre, hpre⟩
    rw [hga] at hg2
    cases hg2
    exact ⟨pid, by simp [hfind], pre, hpre⟩
  · cases u
    rw [hc] at h
    have hclaims := (exceptSeq_ok_iff (validateClaim validIds) r.claims).mp hc
    have hnone : r.claims.findSome? (firstOffenderClaim validIds) = none :=
      findSome?_eq_none_of_all _ _
        (fun a ha => (validateClaim_ok_iff_offender validIds a).mp (hclaims a ha))
    rcases exceptSeq_error_findSome
        (validateGap validIds (r.clusters.map (fun c => c.cluster_id)))
        (firstOffenderGap validIds (r.clusters.map (fun c => c.cluster_id)))
        (validateGap_ok_iff_offender validIds _)
        r.research_gaps _ h with ⟨pid, hfind, a, ha, hfa, hga⟩
    rcases validateGap_error_names validIds _ a _ hfa with ⟨pid2, hg2, pre, hpre⟩
    rw [hga] at hg2
    cases hg2
    exact ⟨pid, by simp [hnone, hfind], pre, hpre⟩

/-- A concrete reasoning result whose only claim cites the unknown paper
id `p9`. -/
def rEx : ReasoningResult :=
  { clusters := [],
    claims := [{ claim_id := "c1", claim_type := ClaimType.trend,
                 statement := "s", supporting_papers := ["p9"],
                 evidence := [], confidence := 1 }],
    research_gaps := [],
    meta := [] }

/-- Witness for C2: at a concrete offending input the validator raises and
the message ends with the first offending id `p9`. -/
theorem C2_validator_integrity_witness :
    ∃ pid, firstOffendingId rEx ["p1"] = some pid ∧
      ∃ pre, "ReasoningClaim c1 references unknown paper_id: p9" = pre ++ pid :=
  (C2_validator_integrity rEx ["p1"]).2
    "ReasoningClaim c1 references unknown paper_id: p9" rfl

/-- C10: a reasoning result in which every claim has empty
`supporting_papers` and `evidence` and every gap has empty
`supporting_papers` and `related_clusters` passes `validate_reasoning`
for every `valid_paper_ids` set, including the empty one. -/
theorem C10_vacuous_acceptance (validIds : List String) (r : ReasoningResult)
    (hcl : ∀ cl ∈ r.claims, cl.supporting_papers = [] ∧ cl.evidence = [])
    (hg : ∀ g ∈ r.research_gaps, g.supporting_papers = [] ∧ g.related_clusters = []) :
    validate_reasoning r validIds = Except.ok () := by
  rw [validate_reasoning_ok_iff]
  constructor
  · intro cl hmem
    rcases hcl cl hmem with ⟨h1, h2⟩
    rw [h1, h2]
    simp
  · intro g hmem
    rcases hg g hmem with ⟨h1, h2⟩
    rw [h1, h2]
    simp

/-- A concrete ungrounded reasoning result: one claim and one gap, each
with no citations at all. -/
def rEmptyRefs : ReasoningResult :=
  { clusters := [],
    claims := [{ claim_id := "c1", claim_type := ClaimType.consensus,
                 statement := "s", supporting_papers := [],
                 evidence := [], confidence := 1/2 }],
    research_gaps := [{ gap_id := "g1", description := "d",
                        related_clusters := [], supporting_papers := [],
                        significance := "" }],
    meta := [] }

/-- Witness for C10: the concrete ungrounded result passes validation
against the empty valid-id set. -/
theorem C10_vacuous_acceptance_witness :
    validate_reasoning rEmptyRefs [] = Except.ok () :=
  C10_vacuous_acceptance [] rEmptyRefs
    (by intro cl hmem; simp [rEmptyRefs] at hmem; subst hmem; exact ⟨rfl, rfl⟩)
    (by intro g hmem; simp [rEmptyRefs] at hmem; subst hmem; exact ⟨rfl, rfl⟩)

/-! ## EventLogger (from `src/rta/logger.py`)

`EventLogger.log` builds a record, then runs
`self.log_path.parent.mkdir(parents=True, exist_ok=True)` and appends one
JSON line to the log file.  Neither filesystem call is wrapped in any
exception handler.  The two I/O effects are modelled as `Except`-valued
outcomes supplied by the environment; the function's control flow contains
no `try`, so it sequences them and propagates the first error. -/
def eventLogger_log (mkdirOutcome appendOutcome : Except String Unit) :
    Except String Unit :=
  match mkdirOutcome with
  | Except.error e => Except.error e
  | Except.ok _ =>
    match appendOutcome with
    | Except.error e => Except.error e
    | Except.ok _ => Except.ok ()

/-- C8 counterexample: a failing append inside `EventLogger.log`
propagates to the caller (there is no exception handler), refuting
"a failure while appending the record never propagates to the calling
stage". -/
theorem C8_log_failure_propagates_counterexample :
    eventLogger_log (Except.ok ()) (Except.error "disk full") =
      Except.error "disk full" := rfl

/-- C8 (amended): `EventLogger.log` runs mkdir then append with no
exception handling, so it succeeds iff both I/O effects succeed, and any
I/O failure is returned (raised) to the caller unchanged. -/
theorem C8_log_propagation (mkdirOutcome appendOutcome : Except String Unit) :
    (eventLogger_log mkdirOutcome appendOutcome = Except.ok () ↔
      mkdirOutcome = Except.ok () ∧ appendOutcome = Except.ok ()) ∧
    (∀ e, mkdirOutcome = Except.error e →
      eventLogger_log mkdirOutcome appendOutcome = Except.error e) ∧
    (∀ e, mkdirOutcome = Except.ok () → appendOutcome = Except.error e →
      eventLogger_log mkdirOutcome appendOutcome = Except.error e) := by
  refine ⟨?_, ?_, ?_⟩
  · unfold eventLogger_log
    rcases mkdirOutcome with e | u
    · simp
    · cases u
      rcases appendOutcome with e | u
      · simp
      · cases u; simp
  · intro e he
    rw [he]
    rfl
  · intro e hm ha
    rw [hm, ha]
    rfl

/-- Witness for C8 (amended), at concrete I/O outcomes. -/
theorem C8_log_propagation_witness :
    eventLogger_log (Except.ok ()) (Except.error "io error") =
      Except.error "io error" :=
  (C8_log_propagation (Except.ok ()) (Except.error "io error")).2.2
    "io error" rfl rfl

/-! ## A small JSON value model

`json.loads` (Python stdlib) is treated as an oracle
`String → Option Json`; the `Json` type below is the shape of its possible
results (numbers as integers suffice for the fields the query-planning
schema decodes, which are all strings or lists of strings). -/

inductive Json where
  | null : Json
  | bool (b : Bool) : Json
  | num (n : Int) : Json
  | str (s : String) : Json
  | arr (xs : List Json) : Json
  | obj (fields : List (String × Json)) : Json

/-- Python truthiness of a JSON-decoded value (`if obj:`). -/
def jsonTruthy : Json → Bool
  | Json.null => false
  | Json.bool b => b
  | Json.num n => n ≠ 0
  | Json.str s => s ≠ ""
  | Json.arr xs => !xs.isEmpty
  | Json.obj fs => !fs.isEmpty

/-- First-match key lookup in a JSON object's field list. -/
def jsonLookup (fields : List (String × Json)) (k : String) : Option Json :=
  (fields.find? (fun f => f.1 = k)).map (fun f => f.2)

/-- Python equality of a decoded JSON value against a string literal
(used by `"original_topic" in obj` when `obj` is a list). -/
def jsonIsStr (k : String) : Json → Bool
  | Json.str s => s = k
  | _ => false

/-- Python `key in obj` on a decoded JSON value: key membership for dicts,
element membership for lists, substring test for strings; a `TypeError`
(modelled as `Except.error`) for the other types. -/
def pyContainsKey (v : Json) (k : String) : Except String Bool :=
  match v with
  | Json.obj fs => Except.ok (fs.any (fun f => f.1 = k))
  | Json.arr xs => Except.ok (xs.any (jsonIsStr k))
  | Json.str s => Except.ok (containsChars s.data k.data)
  | _ => Except.error "TypeError: argument of type is not iterable"

/-! ## Code-fence stripping and JSON block extraction

Both `query_plan_gemini._extract_json_block` and
`reasoning_agent._extract_first_complete_json_object` begin with
`t = text.strip()` followed by
`re.sub(r"^` ``(?:json)?\s*", ...)` / `re.sub(r"\s*`` `$", ...)`
(backticks) when the text starts with a triple backtick. -/

/-- Removal of a leading code fence:
drop the three backticks, an optional case-insensitive `json`, then
whitespace. -/
def dropLeadingFence (cs : List Char) : List Char :=
  let rest := cs.drop 3
  let rest :=
    if startsWithChars (rest.map Char.toLower) ("json".data) then rest.drop 4
    else rest
  rest.dropWhile isPyWs

/-- Removal of a trailing `\s*` fence-close, if present. -/
def dropTrailingFence (cs : List Char) : List Char :=
  let r := cs.reverse.dropWhile isPyWs
  if startsWithChars r ("```".data) then (r.drop 3).reverse else cs

/-- The shared fence-stripping step of both JSON extractors. -/
def stripFences (t : String) : String :=
  if startsWithChars t.data ("```".data) then
    String.mk (dropTrailingFence (dropLeadingFence t.data))
  else t

/-- Embedding of `_extract_json_block` (query_plan_gemini.py): strip + fences; if the
text is already `{...}` use it; else slice from the first `\x7b` to the
last `\x7d`; else return the text unchanged. -/
def extractJsonBlockQP (text : String) : String :=
  let t := stripFences (pyStrip text)
  if startsWithChars t.data ("\x7b".data) && startsWithChars t.data.reverse ("\x7d".data) then t
  else
    let ds := t.data
    match ds.findIdx? (fun c => c = '{') with
    | none => t
    | some start =>
      match ds.reverse.findIdx? (fun c => c = '}') with
      | none => t
      | some rIdx =>
        let endIdx := ds.length - 1 - rIdx
        if start < endIdx then String.mk ((ds.drop start).take (endIdx - start + 1))
        else t

/-- Newline normalisation: `\r\n` and lone `\r` both become `\n`
(`s.replace("\r\n","\n").replace("\r","\n")`). -/
def normNewlines : List Char → List Char
  | [] => []
  | '\r' :: '\n' :: rest => '\n' :: normNewlines rest
  | '\r' :: rest => '\n' :: normNewlines rest
  | c :: rest => c :: normNewlines rest

/-- The character loop of `_sanitize_json_text`: inside a string literal,
escape sequences are copied, a closing quote ends the string, and a raw
newline becomes the two characters `\n`; outside, a quote opens a
string. -/
def sanitizeGo (inStr esc : Bool) : List Char → List Char
  | [] => []
  | c :: rest =>
    if inStr then
      if esc then c :: sanitizeGo true false rest
      else if c = '\\' then c :: sanitizeGo true true rest
      else if c = '"' then c :: sanitizeGo false false rest
      else if c = '\n' then '\\' :: 'n' :: sanitizeGo true false rest
      else c :: sanitizeGo true false rest
    else
      if c = '"' then c :: sanitizeGo true false rest
      else c :: sanitizeGo false false rest

/-- Embedding of `_sanitize_json_text` (query_plan_gemini.py):
`s.lstrip("﻿").strip()`, newline normalisation, the in-string escape
pass, and a final `.strip()`. -/
def sanitizeJsonText (s : String) : String :=
  let cs := s.data.dropWhile (fun c => c = Char.ofNat 0xFEFF)
  let s1 := pyStrip (String.mk cs)
  pyStrip (String.mk (sanitizeGo false false (normNewlines s1.data)))

/-! ## QueryPlan (from `src/rta/schemas/query_plan.py`)

The pydantic model used by the query-planning stage: five required
fields, no defaults; pydantic v2 default config ignores extra input
fields and does not coerce non-strings into `str`. -/

structure QueryPlan where
  expanded_queries : List String
  must_include : List String
  exclude : List String
  target_subtasks : List String
  notes : String
deriving DecidableEq

/-- Decode a JSON value as a pydantic `str` field. -/
def asStr : Json → Option String
  | Json.str s => some s
  | _ => none

/-- Decode a JSON value as a pydantic `List[str]` field. -/
def asStrList : Json → Option (List String)
  | Json.arr xs => xs.mapM asStr
  | _ => none

/-- Embedding of `QueryPlan.model_validate` on a decoded JSON value: requires a JSON
object providing all five fields with the right shapes; extra fields
(such as `original_topic`) are ignored. -/
def queryPlanValidate : Json → Option QueryPlan
  | Json.obj fs => do
    let eqs ← jsonLookup fs "expanded_queries" >>= asStrList
    let mi ← jsonLookup fs "must_include" >>= asStrList
    let ex ← jsonLookup fs "exclude" >>= asStrList
    let ts ← jsonLookup fs "target_subtasks" >>= asStrList
    let notes ← jsonLookup fs "notes" >>= asStr
    pure { expanded_queries := eqs, must_include := mi, exclude := ex,
           target_subtasks := ts, notes := notes }
  | _ => none

/-- The `try` block of step 3 of `run_query_planning`:
`if "original_topic" not in obj: obj["original_topic"] = topic` followed by
`QueryPlan.model_validate(obj)`; any exception (a `TypeError` from `in` or
item assignment on a non-dict, or a pydantic validation error) is caught by
the caller and yields `none`. -/
def tryValidateWithTopic (topic : String) (o : Json) : Option QueryPlan :=
  match pyContainsKey o "original_topic" with
  | Except.error _ => none
  | Except.ok present =>
    if present then queryPlanValidate o
    else
      match o with
      | Json.obj fs =>
          queryPlanValidate (Json.obj (fs ++ [("original_topic", Json.str topic)]))
      | _ => none

/-- The fixed fallback plan built by `run_query_planning` when parsing,
repair, or validation fails. -/
def fallbackPlan (topic : String) : QueryPlan :=
  { expanded_queries := [topic, topic ++ " survey", topic ++ " methodology",
      topic ++ " challenges", topic ++ " state of the art"],
    must_include := ["Key concepts", "Recent advances", "Benchmarks"],
    exclude := ["Irrelevant domains", "Outdated methods"],
    target_subtasks := ["Define terminology", "Categorize methods",
      "Compare performance"],
    notes := "Generated via fallback due to JSON parsing failure." }

/-- Result of the query-planning stage together with the number of LLM
repair requests issued (`_repair_json_via_llm` invocations). -/
structure QPOut where
  plan : QueryPlan
  repairs : Nat
deriving DecidableEq

/-- Embedding of `run_query_planning(topic)` (query_plan_gemini.py).

The generation capability is modelled by the outcomes of its two possible
`generate_text` calls: `gen1` for the planning request and `genRepair` for
the repair request (`Except.error` = the call raised).  `json.loads` is the
oracle `jsonLoads`, returning `none` on `JSONDecodeError`.

Control flow from the source: a generation exception is caught and treated
as empty text; an empty extracted candidate skips parsing; a parse failure
triggers exactly one LLM repair (whose own exception is caught inside
`_repair_json_via_llm`, returning the broken JSON unchanged); a falsy or
invalid object falls back to the fixed plan.  Every path returns a plan;
nothing propagates.  `qpFromRaw` is the stage body from the
`candidate = ...` line onwards, applied to the raw completion text. -/
def qpFromRaw (genRepair : Except String String)
    (jsonLoads : String → Option Json) (topic : String)
    (raw_text : String) : QPOut :=
  let candidate := sanitizeJsonText (extractJsonBlockQP raw_text)
  let parsed : Option Json × Nat :=
    if candidate = "" then (none, 0)
    else
      match jsonLoads candidate with
      | some o => (some o, 0)
      | none =>
        let repaired_text := match genRepair with
          | Except.ok t => t
          | Except.error _ => candidate
        let repaired_candidate := sanitizeJsonText (extractJsonBlockQP repaired_text)
        (jsonLoads repaired_candidate, 1)
  match parsed.1 with
  | some o =>
    if jsonTruthy o then
      match tryValidateWithTopic topic o with
      | some plan => { plan := plan, repairs := parsed.2 }
      | none => { plan := fallbackPlan topic, repairs := parsed.2 }
    else { plan := fallbackPlan topic, repairs := parsed.2 }
  | none => { plan := fallbackPlan topic, repairs := parsed.2 }

/-- Step 1 of `run_query_planning`: the generation `try/except` that turns
a raised exception into empty text; the rest of the stage is
`qpFromRaw`. -/
def run_query_planning (gen1 genRepair : Except String String)
    (jsonLoads : String → Option Json) (topic : String) : QPOut :=
  qpFromRaw genRepair jsonLoads topic
    (match gen1 with
     | Except.ok t => t
     | Except.error _ => "")

/-! ## PaperItem and configuration (from `src/rta/schemas/core.py` and
`src/rta/config.py`)

Python `int` fields are modelled as `Int` (they are unbounded and may be
negative in principle). -/

/-- Model of `PaperItem` (schemas/core.py). -/
structure PaperItem where
  paper_id : String := ""
  title : String
  authors : List String := []
  year : Option Int := none
  abstract : String := ""
  url : String := ""
  venue : String := ""
  citation_count : Option Int := none
  source : String := ""
deriving DecidableEq

/-- Model of `RTAConfig` (config.py), restricted to the fields the
retrieval stage reads. -/
structure RTAConfig where
  max_papers : Int
  min_year : Int
  max_year : Int
deriving DecidableEq

/-! ## GeminiClient.generate_json (from `src/rta/llm/gemini_client.py`)

The underlying `client.models.generate_content` call plus text extraction
is an external collaborator; its outcome (raised exception, or extracted
text) is a parameter.  `generate_json` itself adds exactly one behaviour:
raise `RuntimeError` when the extracted text is empty after stripping. -/

/-- The `RuntimeError` message `generate_json` raises on empty text. -/
def gmEmptyMsg : String :=
  "Gemini returned empty text. Possible causes: quota/rate-limit, safety block, or SDK response format."

/-- Embedding of `GeminiClient.generate_json`: propagate a call failure,
raise on empty extracted text, otherwise return the text. -/
def generate_json (respText : Except String String) : Except String String :=
  match respText with
  | Except.error e => Except.error e
  | Except.ok text =>
    if pyStrip text = "" then Except.error gmEmptyMsg else Except.ok text

/-! ## Reasoning agent (from `src/rta/stages/reasoning_agent.py`) -/

/-- The brace scan of `_extract_first_complete_json_object`, started at the
first `\x7b` of the text: string-literal- and escape-aware depth counting;
`some` returns the first complete top-level object, `none` means the object
never closes. -/
def scanObj : List Char → Nat → Bool → Bool → List Char → Option (List Char)
  | [], _, _, _, _ => none
  | c :: rest, depth, inStr, esc, acc =>
    let acc2 := c :: acc
    if inStr then
      if esc then scanObj rest depth true false acc2
      else if c = '\\' then scanObj rest depth true true acc2
      else if c = '"' then scanObj rest depth false false acc2
      else scanObj rest depth true false acc2
    else
      if c = '"' then scanObj rest depth true false acc2
      else if c = '{' then scanObj rest (depth + 1) false false acc2
      else if c = '}' then
        if depth = 1 then some acc2.reverse
        else scanObj rest (depth - 1) false false acc2
      else scanObj rest depth false false acc2

/-- Embedding of `_extract_first_complete_json_object`
(reasoning_agent.py): strip, remove fences, and return the first complete
top-level object (or the tail from the first `\x7b` if it never closes, or
the whole text if there is no `\x7b`). -/
def extractFirstObj (text : String) : String :=
  let t := stripFences (pyStrip text)
  let tail := t.data.dropWhile (fun c => c ≠ '{')
  match tail with
  | [] => t
  | _ :: _ =>
    match scanObj tail 0 false false [] with
    | some objChars => String.mk objChars
    | none => String.mk tail

/-- The `RuntimeError` message recorded when a size returns empty text
(dead code given `generate_json`, kept faithfully). -/
def stage4EmptyMsg : String :=
  "Stage4 returned empty response (possible quota/safety/truncation)."

/-- Outcome of one iteration of the `for attempt in (1, 2)` repair loop of
`run_reasoning_agent`: one `_repair_json_via_llm` call (= one
`generate_json` call, whose exception the loop catches), then extraction,
`json.loads` and `ReasoningResult.model_validate` (the oracle `pv`).
`repairedCandidate` is updated only when generation succeeded, exactly as
in the source. -/
structure RepairStep where
  success : Option ReasoningResult
  repairedCandidate : String
  lastErr : String
  parses : Nat
deriving DecidableEq

/-- One repair attempt of `run_reasoning_agent`. -/
def repairOnce (api : Nat → Except String String)
    (pv : String → Except String ReasoningResult)
    (repairedCandidate : String) (callIdx : Nat) : RepairStep :=
  match generate_json (api callIdx) with
  | Except.error e2 =>
      { success := none, repairedCandidate := repairedCandidate,
        lastErr := e2, parses := 0 }
  | Except.ok repaired =>
    let rc := extractFirstObj repaired
    match pv rc with
    | Except.ok r =>
        { success := some r, repairedCandidate := rc, lastErr := "", parses := 1 }
    | Except.error e2 =>
        { success := none, repairedCandidate := rc, lastErr := e2, parses := 1 }

/-- Outcome of one candidate size of `run_reasoning_agent`. -/
structure SizeOut where
  success : Option ReasoningResult
  callIdx : Nat
  repairs : Nat
  parses : Nat
  lastErr : String
deriving DecidableEq

/-- Body of the `for size in candidate_sizes` loop of
`run_reasoning_agent`: the initial `generate_json` call is *not* inside any
`try`, so its exception propagates out of the stage (`Except.error`); a
parse failure is followed by exactly two repair attempts on this size. -/
def processSize (api : Nat → Except String String)
    (pv : String → Except String ReasoningResult) (callIdx : Nat) :
    Except String SizeOut :=
  match generate_json (api callIdx) with
  | Except.error e => Except.error e
  | Except.ok raw_text =>
    let c0 := callIdx + 1
    if pyStrip raw_text = "" then
      Except.ok { success := none, callIdx := c0, repairs := 0, parses := 0,
                  lastErr := stage4EmptyMsg }
    else
      let candidate := extractFirstObj raw_text
      match pv candidate with
      | Except.ok r =>
          Except.ok { success := some r, callIdx := c0, repairs := 0,
                      parses := 1, lastErr := "" }
      | Except.error _e =>
        let s1 := repairOnce api pv candidate c0
        match s1.success with
        | some r =>
            Except.ok { success := some r, callIdx := c0 + 1, repairs := 1,
                        parses := 1 + s1.parses, lastErr := "" }
        | none =>
          let s2 := repairOnce api pv s1.repairedCandidate (c0 + 1)
          match s2.success with
          | some r =>
              Except.ok { success := some r, callIdx := c0 + 2, repairs := 2,
                          parses := 1 + s1.parses + s2.parses, lastErr := "" }
          | none =>
              Except.ok { success := none, callIdx := c0 + 2, repairs := 2,
                          parses := 1 + s1.parses + s2.parses,
                          lastErr := s2.lastErr }

/-- Observable outcome of `run_reasoning_agent`: the result (ok, or the
raised exception), and how many repair requests, parse attempts and
generation calls were made. -/
structure AgentOut where
  result : Except String ReasoningResult
  repairs : Nat
  parses : Nat
  calls : Nat

/-- The `candidate_sizes` list of `run_reasoning_agent`. -/
def candidateSizes (n : Nat) : List Nat :=
  if n ≤ 20 then [n] else [min n 80, min n 40, min n 20]

/-- The `for size in candidate_sizes` loop with accumulated counters; when
all sizes are exhausted the stage raises
`RuntimeError(f"Stage4 reasoning failed after retries: \x7blast_error\x7d")`. -/
def sizesLoop (api : Nat → Except String String)
    (pv : String → Except String ReasoningResult) :
    List Nat → Nat → Nat → Nat → String → AgentOut
  | [], callIdx, repairs, parses, lastErr =>
      { result := Except.error ("Stage4 reasoning failed after retries: " ++ lastErr),
        repairs := repairs, parses := parses, calls := callIdx }
  | _size :: rest, callIdx, repairs, parses, _lastErr =>
      match processSize api pv callIdx with
      | Except.error e =>
          { result := Except.error e, repairs := repairs, parses := parses,
            calls := callIdx + 1 }
      | Except.ok so =>
        match so.success with
        | some r =>
            { result := Except.ok r, repairs := repairs + so.repairs,
              parses := parses + so.parses, calls := so.callIdx }
        | none =>
            sizesLoop api pv rest so.callIdx (repairs + so.repairs)
              (parses + so.parses) so.lastErr

/-- Embedding of `run_reasoning_agent` (reasoning_agent.py).

The generation capability is `api : Nat → Except String String`, giving the
outcome of the k-th `generate_content` call of this stage (prompt contents
do not affect the modelled observables); `json.loads` plus
`ReasoningResult.model_validate` is the oracle `pv`.  Prompt-file setup and
the paper subset construction (`papers_dict[:size]`) only affect prompt
text and are elided.  Python's initial `last_error = None` renders as the
string `"None"` (unreachable: every size sets `last_error` before the loop
ends). -/
def run_reasoning_agent (api : Nat → Except String String)
    (pv : String → Except String ReasoningResult)
    (papers : List PaperItem) : AgentOut :=
  sizesLoop api pv (candidateSizes papers.length) 0 0 0 "None"

/-! ## Theorems about the structured-output paths -/

theorem generate_json_ok {t : String} (h : ¬ pyStrip t = "") :
    generate_json (Except.ok t) = Except.ok t := by
  show (if pyStrip t = "" then Except.error gmEmptyMsg else Except.ok t) =
    Except.ok t
  rw [if_neg h]

theorem generate_json_empty {t : String} (h : pyStrip t = "") :
    generate_json (Except.ok t) = Except.error gmEmptyMsg := by
  show (if pyStrip t = "" then Except.error gmEmptyMsg else Except.ok t) =
    Except.error gmEmptyMsg
  rw [if_pos h]

theorem processSize_allbad (api : Nat → Except String String)
    (pv : String → Except String ReasoningResult)
    (hgen : ∀ k, ∃ t, api k = Except.ok t ∧ pyStrip t ≠ "")
    (hpv : ∀ s, ∃ e, pv s = Except.error e) (c : Nat) :
    ∃ e2, processSize api pv c =
      Except.ok { success := none, callIdx := c + 3, repairs := 2,
                  parses := 3, lastErr := e2 } := by
  obtain ⟨t0, ht0, hne0⟩ := hgen c
  obtain ⟨t1, ht1, hne1⟩ := hgen (c + 1)
  obtain ⟨t2, ht2, hne2⟩ := hgen (c + 1 + 1)
  obtain ⟨e0, he0⟩ := hpv (extractFirstObj t0)
  obtain ⟨e1, he1⟩ := hpv (extractFirstObj t1)
  obtain ⟨e2, he2⟩ := hpv (extractFirstObj t2)
  refine ⟨e2, ?_⟩
  have g0 : generate_json (api c) = Except.ok t0 := by
    rw [ht0]; exact generate_json_ok hne0
  have g1 : generate_json (api (c + 1)) = Except.ok t1 := by
    rw [ht1]; exact generate_json_ok hne1
  have g2 : generate_json (api (c + 1 + 1)) = Except.ok t2 := by
    rw [ht2]; exact generate_json_ok hne2
  have hs1 : repairOnce api pv (extractFirstObj t0) (c + 1) =
      { success := none, repairedCandidate := extractFirstObj t1,
        lastErr := e1, parses := 1 } := by
    simp only [repairOnce, g1, he1]
  have hs2 : repairOnce api pv (extractFirstObj t1) (c + 1 + 1) =
      { success := none, repairedCandidate := extractFirstObj t2,
        lastErr := e2, parses := 1 } := by
    simp only [repairOnce, g2, he2]
  simp only [processSize, g0, if_neg hne0, he0, hs1, hs2]

theorem sizesLoop_allbad (api : Nat → Except String String)
    (pv : String → Except String ReasoningResult)
    (hgen : ∀ k, ∃ t, api k = Except.ok t ∧ pyStrip t ≠ "")
    (hpv : ∀ s, ∃ e, pv s = Except.error e) :
    ∀ (sizes : List Nat) (c rep par : Nat) (le : String),
      ∃ e, sizesLoop api pv sizes c rep par le =
        { result := Except.error ("Stage4 reasoning failed after retries: " ++ e),
          repairs := rep + 2 * sizes.length,
          parses := par + 3 * sizes.length,
          calls := c + 3 * sizes.length }
  | [], c, rep, par, le => ⟨le, by simp [sizesLoop]⟩
  | _s :: rest, c, rep, par, le => by
    obtain ⟨e2, hps⟩ := processSize_allbad api pv hgen hpv c
    obtain ⟨e, hIH⟩ := sizesLoop_allbad api pv hgen hpv rest (c + 3) (rep + 2) (par + 3) e2
    refine ⟨e, ?_⟩
    unfold sizesLoop
    rw [hps]
    simp only []
    rw [hIH]
    congr 1 <;> simp <;> ring

/-! Closed-form behaviour of `run_query_planning` on the three failure
shapes of its generation capability. -/

theorem extractJsonBlockQP_empty : extractJsonBlockQP "" = "" := rfl

theorem sanitizeJsonText_empty : sanitizeJsonText "" = "" := rfl

theorem qpFromRaw_candidate_empty (t : String) (gR : Except String String)
    (jl : String → Option Json) (topic : String)
    (hc : sanitizeJsonText (extractJsonBlockQP t) = "") :
    qpFromRaw gR jl topic t = { plan := fallbackPlan topic, repairs := 0 } := by
  simp only [qpFromRaw]
  rw [if_pos hc]

theorem qpFromRaw_unparsable (t : String) (gR : Except String String)
    (jl : String → Option Json) (topic : String)
    (hc : ¬ sanitizeJsonText (extractJsonBlockQP t) = "")
    (hjl : ∀ s, jl s = none) :
    qpFromRaw gR jl topic t = { plan := fallbackPlan topic, repairs := 1 } := by
  simp only [qpFromRaw]
  rw [if_neg hc]
  simp only [hjl]

theorem qp_candidate_empty (t : String) (gR : Except String String)
    (jl : String → Option Json) (topic : String)
    (hc : sanitizeJsonText (extractJsonBlockQP t) = "") :
    run_query_planning (Except.ok t) gR jl topic =
      { plan := fallbackPlan topic, repairs := 0 } := by
  show qpFromRaw gR jl topic t = _
  exact qpFromRaw_candidate_empty t gR jl topic hc

theorem qp_gen_error (e : String) (gR : Except String String)
    (jl : String → Option Json) (topic : String) :
    run_query_planning (Except.error e) gR jl topic =
      { plan := fallbackPlan topic, repairs := 0 } := by
  show qpFromRaw gR jl topic "" = _
  exact qpFromRaw_candidate_empty "" gR jl topic
    (by rw [extractJsonBlockQP_empty, sanitizeJsonText_empty])

theorem qp_unparsable (t : String) (gR : Except String String)
    (jl : String → Option Json) (topic : String)
    (hc : ¬ sanitizeJsonText (extractJsonBlockQP t) = "")
    (hjl : ∀ s, jl s = none) :
    run_query_planning (Except.ok t) gR jl topic =
      { plan := fallbackPlan topic, repairs := 1 } := by
  show qpFromRaw gR jl topic t = _
  exact qpFromRaw_unparsable t gR jl topic hc hjl

/-- C1 (amended): with a generation capability that always returns
non-empty text that never parses into a schema-valid value,
`run_reasoning_agent` performs exactly 2 repair attempts per candidate size
(3 parse attempts per size): 2 repairs and 3 parses in total for at most 20
papers, 6 repairs and 9 parses for more than 20 papers, after which it
raises a terminal `RuntimeError` carrying the failure reason; whereas
`run_query_planning` performs at most 1 repair attempt and never raises —
it returns the deterministic fallback plan. -/
theorem C1_repair_termination (api : Nat → Except String String)
    (pv : String → Except String ReasoningResult) (papers : List PaperItem)
    (g1 gR : Except String String) (jl : String → Option Json) (topic : String)
    (hgen : ∀ k, ∃ t, api k = Except.ok t ∧ pyStrip t ≠ "")
    (hpv : ∀ s, ∃ e, pv s = Except.error e)
    (hjl : ∀ s, jl s = none) :
    (run_reasoning_agent api pv papers).repairs =
        2 * (candidateSizes papers.length).length ∧
    (run_reasoning_agent api pv papers).parses =
        3 * (candidateSizes papers.length).length ∧
    (papers.length ≤ 20 → (run_reasoning_agent api pv papers).repairs = 2 ∧
        (run_reasoning_agent api pv papers).parses = 3) ∧
    (20 < papers.length → (run_reasoning_agent api pv papers).repairs = 6 ∧
        (run_reasoning_agent api pv papers).parses = 9) ∧
    (∃ e, (run_reasoning_agent api pv papers).result =
        Except.error ("Stage4 reasoning failed after retries: " ++ e)) ∧
    (run_query_planning g1 gR jl topic).repairs ≤ 1 ∧
    (run_query_planning g1 gR jl topic).plan = fallbackPlan topic := by
  obtain ⟨e, hloop⟩ := sizesLoop_allbad api pv hgen hpv
      (candidateSizes papers.length) 0 0 0 "None"
  have hrun : run_reasoning_agent api pv papers =
      { result := Except.error ("Stage4 reasoning failed after retries: " ++ e),
        repairs := 0 + 2 * (candidateSizes papers.length).length,
        parses := 0 + 3 * (candidateSizes papers.length).length,
        calls := 0 + 3 * (candidateSizes papers.length).length } := by
    unfold run_reasoning_agent
    exact hloop
  have hlen_le : papers.length ≤ 20 → (candidateSizes papers.length).length = 1 := by
    intro h
    unfold candidateSizes
    rw [if_pos h]
    rfl
  have hlen_gt : 20 < papers.length → (candidateSizes papers.length).length = 3 := by
    intro h
    unfold candidateSizes
    rw [if_neg (by omega)]
    rfl
  have hqp : (run_query_planning g1 gR jl topic).repairs ≤ 1 ∧
      (run_query_planning g1 gR jl topic).plan = fallbackPlan topic := by
    rcases g1 with e1 | t1
    · rw [qp_gen_error e1 gR jl topic]
      exact ⟨Nat.zero_le 1, rfl⟩
    · by_cases hc : sanitizeJsonText (extractJsonBlockQP t1) = ""
      · rw [qp_candidate_empty t1 gR jl topic hc]
        exact ⟨Nat.zero_le 1, rfl⟩
      · rw [qp_unparsable t1 gR jl topic hc hjl]
        exact ⟨Nat.le_refl 1, rfl⟩
  refine ⟨by rw [hrun]; simp, by rw [hrun]; simp, ?_, ?_, ⟨e, by rw [hrun]⟩, hqp⟩
  · intro h
    rw [hrun]
    simp [hlen_le h]
  · intro h
    rw [hrun]
    simp [hlen_gt h]

/-- C1 counterexample: at a concrete always-unparsable generation
capability, the query-planning structured-output path performs exactly 1
repair attempt (not 2) and then returns the fallback plan instead of
raising a terminal error. -/
theorem C1_repair_termination_counterexample :
    run_query_planning (Except.ok "not json") (Except.ok "still not json")
        (fun _ => none) "t" =
      { plan := fallbackPlan "t", repairs := 1 } := by
  rfl

/-- Witness for C1 (amended): concrete capability returning unparsable
non-empty text; zero papers (one candidate size). -/
theorem C1_repair_termination_witness :
    (run_reasoning_agent (fun _ => Except.ok "x")
        (fun _ => Except.error "bad") []).repairs = 2 ∧
    (run_query_planning (Except.ok "zz") (Except.ok "zz")
        (fun _ => none) "t").plan = fallbackPlan "t" := by
  have h := C1_repair_termination (fun _ => Except.ok "x")
      (fun _ => Except.error "bad") [] (Except.ok "zz") (Except.ok "zz")
      (fun _ => none) "t"
      (fun _ => ⟨"x", rfl, by decide⟩)
      (fun s => ⟨"bad", rfl⟩)
      (fun _ => rfl)
  exact ⟨(h.2.2.1 (by decide)).1, h.2.2.2.2.2.2⟩

theorem qpFromRaw_invalid (t : String) (gR : Except String String)
    (jl : String → Option Json) (topic : String) (o : Json)
    (hsome : jl (sanitizeJsonText (extractJsonBlockQP t)) = some o)
    (hval : tryValidateWithTopic topic o = none) :
    (qpFromRaw gR jl topic t).plan = fallbackPlan topic := by
  by_cases hc : sanitizeJsonText (extractJsonBlockQP t) = ""
  · rw [qpFromRaw_candidate_empty t gR jl topic hc]
  · simp only [qpFromRaw]
    rw [if_neg hc, hsome]
    rcases Bool.eq_false_or_eq_true (jsonTruthy o) with hb | hb <;>
      simp [hb, hval]

/-- C9: `run_query_planning` is total over the generation capability's
behaviours: a raised generation exception, an empty completion, text whose
extracted candidate never parses, and a parsed but schema-invalid object
all yield the deterministic fallback plan (never an exception), and the
fallback's `expanded_queries` contain the topic itself. -/
theorem C9_query_planning_total (gR : Except String String)
    (jl : String → Option Json) (topic : String) :
    (∀ e, run_query_planning (Except.error e) gR jl topic =
        { plan := fallbackPlan topic, repairs := 0 }) ∧
    (run_query_planning (Except.ok "") gR jl topic =
        { plan := fallbackPlan topic, repairs := 0 }) ∧
    (∀ g1, (∀ s, jl s = none) →
        (run_query_planning g1 gR jl topic).plan = fallbackPlan topic) ∧
    (∀ t o, jl (sanitizeJsonText (extractJsonBlockQP t)) = some o →
        tryValidateWithTopic topic o = none →
        (run_query_planning (Except.ok t) gR jl topic).plan = fallbackPlan topic) ∧
    topic ∈ (fallbackPlan topic).expanded_queries := by
  refine ⟨fun e => qp_gen_error e gR jl topic, ?_, ?_, ?_, ?_⟩
  · show qpFromRaw gR jl topic "" = _
    exact qpFromRaw_candidate_empty "" gR jl topic
      (by rw [extractJsonBlockQP_empty, sanitizeJsonText_empty])
  · intro g1 hjl
    rcases g1 with e1 | t1
    · rw [qp_gen_error e1 gR jl topic]
    · by_cases hc : sanitizeJsonText (extractJsonBlockQP t1) = ""
      · rw [qp_candidate_empty t1 gR jl topic hc]
      · rw [qp_unparsable t1 gR jl topic hc hjl]
  · intro t o hsome hval
    show (qpFromRaw gR jl topic t).plan = _
    exact qpFromRaw_invalid t gR jl topic o hsome hval
  · simp [fallbackPlan]

/-- Witness for C9, at a concrete always-failing parse oracle. -/
theorem C9_query_planning_total_witness :
    (run_query_planning (Except.ok "garbage") (Except.ok "garbage")
        (fun _ => none) "carbon capture").plan = fallbackPlan "carbon capture" ∧
    "carbon capture" ∈ (fallbackPlan "carbon capture").expanded_queries := by
  have h := C9_query_planning_total (Except.ok "garbage")
      (fun _ => none) "carbon capture"
  exact ⟨h.2.2.1 (Except.ok "garbage") (fun _ => rfl), h.2.2.2.2⟩

/-! C7: empty completions and fatal capability errors. -/

theorem candidateSizes_cons (n : Nat) :
    ∃ s rest, candidateSizes n = s :: rest := by
  unfold candidateSizes
  by_cases h : n ≤ 20
  · rw [if_pos h]; exact ⟨n, [], rfl⟩
  · rw [if_neg h]; exact ⟨min n 80, [min n 40, min n 20], rfl⟩

theorem processSize_abort (api : Nat → Except String String)
    (pv : String → Except String ReasoningResult) (c : Nat) (e : String)
    (h : generate_json (api c) = Except.error e) :
    processSize api pv c = Except.error e := by
  simp only [processSize, h]

theorem run_reasoning_agent_abort (api : Nat → Except String String)
    (pv : String → Except String ReasoningResult) (papers : List PaperItem)
    (e : String) (h : generate_json (api 0) = Except.error e) :
    run_reasoning_agent api pv papers =
      { result := Except.error e, repairs := 0, parses := 0, calls := 1 } := by
  obtain ⟨s, rest, hcs⟩ := candidateSizes_cons papers.length
  unfold run_reasoning_agent
  rw [hcs]
  simp only [sizesLoop, processSize_abort api pv 0 e h]

/-- C7 (amended): on the `GeminiClient` path, an empty completion is a
hard failure raised inside `generate_json` (nothing to repair) and a fatal
capability error propagates unchanged; `run_reasoning_agent`'s initial call
is outside any `try`, so either failure aborts the stage immediately with
zero repair requests and zero parse attempts.  On the query-planning path,
an empty completion likewise triggers no repair, but a fatal
capability error does **not** propagate: the stage catches it and returns
the fallback plan. -/
theorem C7_empty_and_fatal_failures :
    (∀ e, generate_json (Except.error e) = Except.error e) ∧
    (∀ t, pyStrip t = "" →
        generate_json (Except.ok t) = Except.error gmEmptyMsg) ∧
    (∀ api pv papers e, api 0 = Except.error e →
        run_reasoning_agent api pv papers =
          { result := Except.error e, repairs := 0, parses := 0, calls := 1 }) ∧
    (∀ api pv papers t, api 0 = Except.ok t → pyStrip t = "" →
        run_reasoning_agent api pv papers =
          { result := Except.error gmEmptyMsg, repairs := 0, parses := 0,
            calls := 1 }) ∧
    (∀ e gR jl topic, run_query_planning (Except.error e) gR jl topic =
        { plan := fallbackPlan topic, repairs := 0 }) := by
  refine ⟨fun e => rfl, fun t ht => generate_json_empty ht, ?_, ?_,
    fun e gR jl topic => qp_gen_error e gR jl topic⟩
  · intro api pv papers e h
    exact run_reasoning_agent_abort api pv papers e (by rw [h]; rfl)
  · intro api pv papers t h ht
    exact run_reasoning_agent_abort api pv papers gmEmptyMsg
      (by rw [h]; exact generate_json_empty ht)

/-- C7 counterexample: a fatal generation-capability error (quota) in the
query-planning stage does *not* propagate — the stage returns the fallback
plan normally, refuting "a fatal generation-capability error propagates
immediately" as a statement about every structured-output stage. -/
theorem C7_fatal_error_counterexample :
    run_query_planning (Except.error "429 RESOURCE_EXHAUSTED: quota")
        (Except.ok "x") (fun _ => none) "graph transformers" =
      { plan := fallbackPlan "graph transformers", repairs := 0 } :=
  qp_gen_error "429 RESOURCE_EXHAUSTED: quota" (Except.ok "x")
    (fun _ => none) "graph transformers"

/-- Witness for C7 (amended), at concrete capability outcomes. -/
theorem C7_empty_and_fatal_failures_witness :
    run_reasoning_agent (fun _ => Except.ok "  ")
        (fun _ => Except.error "unused") [] =
      { result := Except.error gmEmptyMsg, repairs := 0, parses := 0,
        calls := 1 } :=
  C7_empty_and_fatal_failures.2.2.2.1 (fun _ => Except.ok "  ")
    (fun _ => Except.error "unused") [] "  " rfl (by decide)

/-! ## RetrievalEngine (from `src/rta/stages/retrieval_live.py`)

The two bibliographic sources are external collaborators; the outcome of
the SemanticScholar / arXiv fetch for query index `i` is given by
`s2resp i` / `axresp i` (each query performs at most one fetch per source;
the internal HTTP backoff retries of `_http_get_json_with_retry` and the
cache are inside the collaborator).  `difflib.SequenceMatcher(...).ratio()`
is the oracle `simFn`, with the float threshold `0.90` rendered as the
rational `9/10`.  A `trace` of observable source events is recorded
alongside the state to express the temporal claims. -/

/-- Embedding of `_norm_title`: strip + lowercase, collapse whitespace
runs to one space, then drop characters outside `[a-z0-9\s\-:]`. -/
def isAllowedTitleChar (c : Char) : Bool :=
  ('a' ≤ c && c ≤ 'z') || ('0' ≤ c && c ≤ '9') || isPyWs c || c = '-' || c = ':'

/-- Whitespace-run collapsing (`re.sub(r"\s+", " ", t)`). -/
def collapseWsGo (prevWs : Bool) : List Char → List Char
  | [] => []
  | c :: rest =>
    if isPyWs c then
      if prevWs then collapseWsGo true rest
      else ' ' :: collapseWsGo true rest
    else c :: collapseWsGo false rest

/-- Embedding of `_norm_title` (retrieval_live.py). -/
def norm_title (t : String) : String :=
  let t1 := pyLower (pyStrip t)
  String.mk ((collapseWsGo false t1.data).filter isAllowedTitleChar)

/-- Embedding of `_title_sim` (retrieval_live.py): the similarity oracle
applied to normalised titles. -/
def title_sim (simFn : String → String → ℚ) (a b : String) : ℚ :=
  simFn (norm_title a) (norm_title b)

/-- Outcome of one `_search_semantic_scholar` fetch: results, a 429 after
backoff retries (`HTTPError` with code 429), another `HTTPError`, or a
`URLError`. -/
inductive S2Outcome where
  | ok (papers : List PaperItem)
  | http429
  | httpErr (msg : String)
  | urlErr (msg : String)

/-- Outcome of one `_search_arxiv` fetch: results, or any of the caught
`HTTPError`/`URLError`/`ParseError` exceptions (including a 429). -/
inductive ArxivOutcome where
  | ok (papers : List PaperItem)
  | err (msg : String)

/-- Observable source events of the retrieval loop: entering a
SemanticScholar fetch, catching a SemanticScholar 429, setting
`s2_disabled = True`, entering an arXiv fetch. -/
inductive RetEv where
  | s2Call (i : Nat)
  | s2RateLimited (i : Nat)
  | s2Disabled (i : Nat)
  | axCall (i : Nat)
deriving DecidableEq

def isS2Call : RetEv → Bool
  | RetEv.s2Call _ => true
  | _ => false

def isS2Disabled : RetEv → Bool
  | RetEv.s2Disabled _ => true
  | _ => false

def isS2RateLimited : RetEv → Bool
  | RetEv.s2RateLimited _ => true
  | _ => false

/-- The mutable state of the `for i, q in enumerate(queries)` loop of
`retrieval_live`, plus the observation trace. -/
structure RetState where
  warnings : List String
  s2_disabled : Bool
  s2_429_count : Nat
  all_papers : List PaperItem
  trace : List RetEv
deriving DecidableEq

/-- The disablement warning text of the circuit breaker. -/
def s2DisabledMsg : String :=
  "SemanticScholar disabled for this run due to repeated 429."

/-- The per-query SemanticScholar rate-limit warning text. -/
def s2RateMsg (q : String) : String :=
  "SemanticScholar rate-limited (429) for query='" ++ q ++ "'"

/-- The SemanticScholar non-429 failure warning text. -/
def s2FailMsg (q m : String) : String :=
  "SemanticScholar failed for query='" ++ q ++ "': " ++ m

/-- The arXiv failure warning text. -/
def axFailMsg (q m : String) : String :=
  "arXiv failed for query='" ++ q ++ "': " ++ m

/-- The SemanticScholar branch of one loop iteration, guarded by
`if not s2_disabled`: extend the pool on success; on a 429 bump the
counter, record the rate-limit warning, and trip the breaker at the third
occurrence (appending exactly one disablement warning); other errors only
warn.  The source's sequential `+=` updates are flattened into one record
update per arm; the trace and warning orders are the source's. -/
def s2Step (s2resp : Nat → S2Outcome) (i : Nat) (q : String)
    (st : RetState) : RetState :=
  if st.s2_disabled then st
  else
    match s2resp i with
    | S2Outcome.ok ps =>
      { st with
        trace := st.trace ++ [RetEv.s2Call i],
        all_papers := st.all_papers ++ ps }
    | S2Outcome.http429 =>
      if 3 ≤ st.s2_429_count + 1 then
        { st with
          s2_429_count := st.s2_429_count + 1,
          s2_disabled := true,
          warnings := st.warnings ++ [s2RateMsg q] ++ [s2DisabledMsg],
          trace := st.trace ++ [RetEv.s2Call i] ++ [RetEv.s2RateLimited i] ++
            [RetEv.s2Disabled i] }
      else
        { st with
          s2_429_count := st.s2_429_count + 1,
          warnings := st.warnings ++ [s2RateMsg q],
          trace := st.trace ++ [RetEv.s2Call i] ++ [RetEv.s2RateLimited i] }
    | S2Outcome.httpErr m =>
      { st with
        trace := st.trace ++ [RetEv.s2Call i],
        warnings := st.warnings ++ [s2FailMsg q m] }
    | S2Outcome.urlErr m =>
      { st with
        trace := st.trace ++ [RetEv.s2Call i],
        warnings := st.warnings ++ [s2FailMsg q m] }

/-- The arXiv branch of one loop iteration; it is always attempted,
whatever happened to SemanticScholar before (there is no breaker for
arXiv). -/
def axStep (axresp : Nat → ArxivOutcome) (i : Nat) (q : String)
    (st1 : RetState) : RetState :=
  match axresp i with
  | ArxivOutcome.ok ps =>
    { st1 with
      trace := st1.trace ++ [RetEv.axCall i],
      all_papers := st1.all_papers ++ ps }
  | ArxivOutcome.err m =>
    { st1 with
      trace := st1.trace ++ [RetEv.axCall i],
      warnings := st1.warnings ++ [axFailMsg q m] }

/-- One iteration of the retrieval loop body (without the early-stop
check). -/
def processQuery (s2resp : Nat → S2Outcome) (axresp : Nat → ArxivOutcome)
    (i : Nat) (q : String) (st : RetState) : RetState :=
  axStep axresp i q (s2Step s2resp i q st)

/-- The query loop with the early-stop check
`if len(all_papers) >= cfg.max_papers * 4: break`. -/
def retLoop (cfg : RTAConfig) (s2resp : Nat → S2Outcome)
    (axresp : Nat → ArxivOutcome) :
    List (Nat × String) → RetState → RetState
  | [], st => st
  | (i, q) :: rest, st =>
    let st := processQuery s2resp axresp i q st
    if (st.all_papers.length : Int) ≥ cfg.max_papers * 4 then st
    else retLoop cfg s2resp axresp rest st

/-- The per-query fetch limit
`min(max(10, min(25, max_papers // max(1, len(queries)))), 20)` (recorded
for completeness; it only parametrises the collaborator fetches). -/
def perQueryLimit (cfg : RTAConfig) (nq : Nat) : Int :=
  min (max 10 (min 25 (Int.fdiv cfg.max_papers (max 1 (nq : Int))))) 20

/-- The dedup loop of `retrieval_live`: skip empty stripped titles, reject
a candidate whose checked similarity to some accepted record is `≥ 0.90`,
and stop scanning right after the accepted list reaches `cap`
(`cfg.max_papers * 2` at the call site). -/
def dedupLoop (simFn : String → String → ℚ) (cap : Int) :
    List PaperItem → List PaperItem → List PaperItem
  | [], uniq => uniq
  | p :: rest, uniq =>
    let title := pyStrip p.title
    if title = "" then dedupLoop simFn cap rest uniq
    else if uniq.any (fun u => title_sim simFn title u.title ≥ (mkRat 9 10)) then
      dedupLoop simFn cap rest uniq
    else
      let uniq2 := uniq ++ [p]
      if (uniq2.length : Int) ≥ cap then uniq2
      else dedupLoop simFn cap rest uniq2

/-- The dedup phase as invoked by `retrieval_live`. -/
def dedupPhase (simFn : String → String → ℚ) (cfg : RTAConfig)
    (papers : List PaperItem) : List PaperItem :=
  dedupLoop simFn (cfg.max_papers * 2) papers []

/-- The year filter: drop records with a known year outside
`[min_year, max_year]`; unknown years pass. -/
def yearFilter (cfg : RTAConfig) (l : List PaperItem) : List PaperItem :=
  l.filter (fun p =>
    match p.year with
    | none => true
    | some y => !(y < cfg.min_year || y > cfg.max_year))

/-- Truthiness of `x.abstract and x.abstract.strip()`: the abstract has a
non-whitespace character. -/
def hasAbstract (p : PaperItem) : Bool := pyStrip p.abstract ≠ ""

/-- The sort `filtered.sort(key=lambda x: 0 if (x.abstract and
x.abstract.strip()) else 1)`: Python `list.sort` is stable, and a stable
sort by a two-valued key is exactly the order-preserving partition with
abstract-bearing records first. -/
def sortByAbstract (l : List PaperItem) : List PaperItem :=
  l.filter hasAbstract ++ l.filter (fun p => !(hasAbstract p))

/-- Python `l[:k]` for an `int` bound (negative bounds count from the
end). -/
def pySliceTo (k : Int) (l : List PaperItem) : List PaperItem :=
  if 0 ≤ k then l.take k.toNat
  else l.take (l.length - (-k).toNat)

/-- Model of `RetrievalResult` (schemas/core.py). -/
structure RetrievalResult where
  queries_used : List String
  papers : List PaperItem
  dedup_before : Int
  dedup_after : Int
  warnings : List String
deriving DecidableEq

/-- The `>40% missing-abstract` warning appended after truncation; the
float comparison `missing_abs / len(filtered) > 0.4` is rendered
exactly over `ℚ`. -/
def missingAbsWarning (filtered : List PaperItem) : List String :=
  let missing := (filtered.filter (fun p => !(hasAbstract p))).length
  if filtered ≠ [] ∧ ((missing : ℚ) / (filtered.length : ℚ) > 2/5) then
    ["High missing-abstract ratio in final set: " ++ toString missing ++
      "/" ++ toString filtered.length]
  else []

/-- Result of `retrieval_live` plus the observation trace. -/
structure RetOutput where
  result : RetrievalResult
  trace : List RetEv

/-- Embedding of `retrieval_live(cfg, qp, logger)`: clean the queries, run
the per-query fan-out with circuit breaker and early stop, then dedup,
year-filter, stable-sort by abstract presence, truncate to the budget, and
assemble the result with its warnings. -/
def retrieval_live (simFn : String → String → ℚ) (s2resp : Nat → S2Outcome)
    (axresp : Nat → ArxivOutcome) (cfg : RTAConfig) (qp : QueryPlan) :
    RetOutput :=
  let queries := (qp.expanded_queries.map pyStrip).filter (fun s => s ≠ "")
  let st0 : RetState :=
    { warnings := [], s2_disabled := false, s2_429_count := 0,
      all_papers := [], trace := [] }
  let st := retLoop cfg s2resp axresp queries.enum st0
  let uniq := dedupPhase simFn cfg st.all_papers
  let filtered := pySliceTo cfg.max_papers (sortByAbstract (yearFilter cfg uniq))
  { result :=
      { queries_used := queries, papers := filtered,
        dedup_before := (st.all_papers.length : Int),
        dedup_after := (filtered.length : Int),
        warnings := st.warnings ++ missingAbsWarning filtered },
    trace := st.trace }

/-! ### C3: the per-source circuit breaker -/

theorem ne_of_take_prefix {l1 l2 : List Char} (t : String) (k : Nat)
    (hk : k ≤ l1.length) (hne : ¬ List.take k l1 = List.take k t.data)
    (h : l1 ++ l2 = t.data) : False := by
  apply hne
  have := congrArg (List.take k) h
  rw [List.take_append_of_le_length hk] at this
  exact this

theorem s2RateMsg_ne (q : String) : s2RateMsg q ≠ s2DisabledMsg := by
  intro h
  have hd := congrArg String.data h
  simp only [s2RateMsg, String.data_append, List.append_assoc] at hd
  exact ne_of_take_prefix s2DisabledMsg 17 (by decide) (by decide) hd

theorem s2FailMsg_ne (q m : String) : s2FailMsg q m ≠ s2DisabledMsg := by
  intro h
  have hd := congrArg String.data h
  simp only [s2FailMsg, String.data_append, List.append_assoc] at hd
  exact ne_of_take_prefix s2DisabledMsg 17 (by decide) (by decide) hd

theorem axFailMsg_ne (q m : String) : axFailMsg q m ≠ s2DisabledMsg := by
  intro h
  have hd := congrArg String.data h
  simp only [axFailMsg, String.data_append, List.append_assoc] at hd
  exact ne_of_take_prefix s2DisabledMsg 1 (by decide) (by decide) hd

theorem missingMsg_ne (x y : String) :
    ("High missing-abstract ratio in final set: " ++ x ++ "/" ++ y) ≠
      s2DisabledMsg := by
  intro h
  have hd := congrArg String.data h
  simp only [String.data_append, List.append_assoc] at hd
  exact ne_of_take_prefix s2DisabledMsg 1 (by decide) (by decide) hd

/-- The loop invariant of the circuit breaker: the flag mirrors the trace
and the 429 count, the count mirrors the rate-limit events, disablement
events and disablement warnings are in bijection and bounded by one, and
no SemanticScholar call ever follows a disablement event. -/
def retInv (st : RetState) : Prop :=
  st.s2_disabled = st.trace.any isS2Disabled ∧
  st.s2_disabled = decide (3 ≤ st.s2_429_count) ∧
  st.s2_429_count = (st.trace.filter isS2RateLimited).length ∧
  (st.trace.filter isS2Disabled).length =
    st.warnings.countP (fun w => w = s2DisabledMsg) ∧
  (st.trace.filter isS2Disabled).length ≤ 1 ∧
  List.Pairwise (fun a b => isS2Disabled a = true → isS2Call b = false) st.trace

theorem pairwise_snoc {R : RetEv → RetEv → Prop} {tr : List RetEv} {ev : RetEv}
    (h : List.Pairwise R tr) (hall : ∀ a ∈ tr, R a ev) :
    List.Pairwise R (tr ++ [ev]) := by
  rw [List.pairwise_append]
  exact ⟨h, List.pairwise_singleton R ev, fun a ha b hb => by
    rw [List.mem_singleton] at hb
    subst hb
    exact hall a ha⟩

theorem retInv_axStep (axresp : Nat → ArxivOutcome) (i : Nat) (q : String)
    (st : RetState) (h : retInv st) : retInv (axStep axresp i q st) := by
  obtain ⟨h1, h2, h3, h4, h5, h6⟩ := h
  have hpw : List.Pairwise
      (fun a b => isS2Disabled a = true → isS2Call b = false)
      (st.trace ++ [RetEv.axCall i]) :=
    pairwise_snoc h6 (fun a _ _ => rfl)
  unfold axStep
  rcases axresp i with ps | m
  · exact ⟨by simpa [List.any_append, isS2Disabled] using h1, h2,
      by simpa [List.filter_append, isS2RateLimited] using h3,
      by simpa [List.filter_append, isS2Disabled] using h4,
      by simpa [List.filter_append, isS2Disabled] using h5, hpw⟩
  · exact ⟨by simpa [List.any_append, isS2Disabled] using h1, h2,
      by simpa [List.filter_append, isS2RateLimited] using h3,
      by simpa [List.filter_append, List.countP_append, isS2Disabled,
        axFailMsg_ne q m] using h4,
      by simpa [List.filter_append, isS2Disabled] using h5, hpw⟩

theorem retInv_s2Step (s2resp : Nat → S2Outcome) (i : Nat) (q : String)
    (st : RetState) (h : retInv st) : retInv (s2Step s2resp i q st) := by
  obtain ⟨h1, h2, h3, h4, h5, h6⟩ := h
  unfold s2Step
  by_cases hd : st.s2_disabled = true
  · rw [if_pos hd]
    exact ⟨h1, h2, h3, h4, h5, h6⟩
  · rw [if_neg hd]
    have hdf : st.s2_disabled = false := Bool.eq_false_iff.mpr hd
    have hany : st.trace.any isS2Disabled = false := by rw [← h1]; exact hdf
    have hNoDis : ∀ ev ∈ st.trace, isS2Disabled ev = false := by
      intro ev hev
      exact Bool.eq_false_iff.mpr (List.any_eq_false.mp hany ev hev)
    have hfilnil : st.trace.filter isS2Disabled = [] :=
      List.filter_eq_nil_iff.mpr (fun a ha => by simp [hNoDis a ha])
    have hcount0 : st.warnings.countP (fun w => w = s2DisabledMsg) = 0 := by
      rw [← h4, hfilnil]
      rfl
    have hpwCall : List.Pairwise
        (fun a b => isS2Disabled a = true → isS2Call b = false)
        (st.trace ++ [RetEv.s2Call i]) :=
      pairwise_snoc h6 (fun a ha hdis => absurd hdis (by simp [hNoDis a ha]))
    rcases s2resp i with ps | _ | m | m
    · -- success: only the trace and the paper pool change
      exact ⟨by simpa [List.any_append, isS2Disabled] using h1, h2,
        by simpa [List.filter_append, isS2RateLimited] using h3,
        by simpa [List.filter_append, isS2Disabled] using h4,
        by simpa [List.filter_append, isS2Disabled] using h5, hpwCall⟩
    · -- 429
      by_cases hc : 3 ≤ st.s2_429_count + 1
      · rw [if_pos hc]
        refine ⟨?_, ?_, ?_, ?_, ?_, ?_⟩
        · simp [List.any_append, isS2Disabled]
        · exact (decide_eq_true hc).symm
        · simp only [List.filter_append]
          simp [isS2RateLimited, ← h3]
        · simp only [List.filter_append, List.countP_append]
          simp [isS2Disabled, hfilnil, hcount0, s2RateMsg_ne q]
        · simp only [List.filter_append]
          simp [isS2Disabled, hfilnil]
        · refine pairwise_snoc (pairwise_snoc hpwCall ?_) ?_
          · intro a _ _
            rfl
          · intro a _ _
            rfl
      · rw [if_neg hc]
        refine ⟨?_, ?_, ?_, ?_, ?_, ?_⟩
        · simp [List.any_append, isS2Disabled, hany, hdf]
        · rw [hdf]
          exact (decide_eq_false hc).symm
        · simp only [List.filter_append]
          simp [isS2RateLimited, ← h3]
        · simp only [List.filter_append, List.countP_append]
          simp [isS2Disabled, ← h4, s2RateMsg_ne q]
        · simp only [List.filter_append]
          simp [isS2Disabled, hfilnil]
        · exact pairwise_snoc hpwCall (fun a _ _ => rfl)
    · -- HTTPError (non-429)
      exact ⟨by simpa [List.any_append, isS2Disabled] using h1, h2,
        by simpa [List.filter_append, isS2RateLimited] using h3,
        by simpa [List.filter_append, List.countP_append, isS2Disabled,
          s2FailMsg_ne q m] using h4,
        by simpa [List.filter_append, isS2Disabled] using h5, hpwCall⟩
    · -- URLError
      exact ⟨by simpa [List.any_append, isS2Disabled] using h1, h2,
        by simpa [List.filter_append, isS2RateLimited] using h3,
        by simpa [List.filter_append, List.countP_append, isS2Disabled,
          s2FailMsg_ne q m] using h4,
        by simpa [List.filter_append, isS2Disabled] using h5, hpwCall⟩

theorem retInv_processQuery (s2resp : Nat → S2Outcome)
    (axresp : Nat → ArxivOutcome) (i : Nat) (q : String) (st : RetState)
    (h : retInv st) : retInv (processQuery s2resp axresp i q st) :=
  retInv_axStep axresp i q _ (retInv_s2Step s2resp i q st h)

theorem retInv_retLoop (cfg : RTAConfig) (s2resp : Nat → S2Outcome)
    (axresp : Nat → ArxivOutcome) :
    ∀ (l : List (Nat × String)) (st : RetState), retInv st →
      retInv (retLoop cfg s2resp axresp l st)
  | [], st, h => h
  | (i, q) :: rest, st, h => by
    unfold retLoop
    have hstep := retInv_processQuery s2resp axresp i q st h
    by_cases hbreak : ((processQuery s2resp axresp i q st).all_papers.length : Int) ≥
        cfg.max_papers * 4
    · rw [if_pos hbreak]
      exact hstep
    · rw [if_neg hbreak]
      exact retInv_retLoop cfg s2resp axresp rest _ hstep

theorem retInv_init : retInv
    { warnings := [], s2_disabled := false, s2_429_count := 0,
      all_papers := [], trace := [] } := by
  refine ⟨rfl, rfl, rfl, rfl, ?_, List.Pairwise.nil⟩
  decide

theorem countP_missingAbsWarning (filtered : List PaperItem) :
    (missingAbsWarning filtered).countP (fun w => w = s2DisabledMsg) = 0 := by
  simp only [missingAbsWarning]
  split
  · simp [missingMsg_ne]
  · rfl

theorem filter_pos_of_any {p : RetEv → Bool} {l : List RetEv}
    (h : l.any p = true) : 1 ≤ (l.filter p).length := by
  obtain ⟨x, hx, hpx⟩ := List.any_eq_true.mp h
  have : x ∈ l.filter p := List.mem_filter.mpr ⟨hx, hpx⟩
  exact List.length_pos.mpr (List.ne_nil_of_mem this)

/-- C3 (amended): within one run, SemanticScholar's circuit breaker opens
exactly upon the third 429 occurrence (the trace contains a disablement
event iff at least 3 rate-limit events occurred), at most one — and, once
open, exactly one — disablement warning is recorded, and no SemanticScholar
call ever follows the disablement event in the trace.  (arXiv has no
breaker; see the counterexample.) -/
theorem C3_circuit_breaker (simFn : String → String → ℚ)
    (s2resp : Nat → S2Outcome) (axresp : Nat → ArxivOutcome)
    (cfg : RTAConfig) (qp : QueryPlan) :
    (((retrieval_live simFn s2resp axresp cfg qp).trace.filter
        isS2Disabled).length ≤ 1) ∧
    ((retrieval_live simFn s2resp axresp cfg qp).result.warnings.countP
        (fun w => w = s2DisabledMsg) =
      ((retrieval_live simFn s2resp axresp cfg qp).trace.filter
        isS2Disabled).length) ∧
    ((retrieval_live simFn s2resp axresp cfg qp).trace.any isS2Disabled =
      decide (3 ≤ ((retrieval_live simFn s2resp axresp cfg qp).trace.filter
        isS2RateLimited).length)) ∧
    ((retrieval_live simFn s2resp axresp cfg qp).trace.any isS2Disabled = true →
      (retrieval_live simFn s2resp axresp cfg qp).result.warnings.countP
        (fun w => w = s2DisabledMsg) = 1) ∧
    List.Pairwise (fun a b => isS2Disabled a = true → isS2Call b = false)
      (retrieval_live simFn s2resp axresp cfg qp).trace := by
  obtain ⟨h1, h2, h3, h4, h5, h6⟩ := retInv_retLoop cfg s2resp axresp
      ((qp.expanded_queries.map pyStrip).filter (fun s => s ≠ "")).enum
      { warnings := [], s2_disabled := false, s2_429_count := 0,
        all_papers := [], trace := [] } retInv_init
  have htrace : (retrieval_live simFn s2resp axresp cfg qp).trace =
      (retLoop cfg s2resp axresp
        ((qp.expanded_queries.map pyStrip).filter (fun s => s ≠ "")).enum
        { warnings := [], s2_disabled := false, s2_429_count := 0,
          all_papers := [], trace := [] }).trace := rfl
  have hwarn : (retrieval_live simFn s2resp axresp cfg qp).result.warnings =
      (retLoop cfg s2resp axresp
        ((qp.expanded_queries.map pyStrip).filter (fun s => s ≠ "")).enum
        { warnings := [], s2_disabled := false, s2_429_count := 0,
          all_papers := [], trace := [] }).warnings ++
      missingAbsWarning (pySliceTo cfg.max_papers (sortByAbstract
        (yearFilter cfg (dedupPhase simFn cfg
          (retLoop cfg s2resp axresp
            ((qp.expanded_queries.map pyStrip).filter (fun s => s ≠ "")).enum
            { warnings := [], s2_disabled := false, s2_429_count := 0,
              all_papers := [], trace := [] }).all_papers)))) := rfl
  have hcountP : (retrieval_live simFn s2resp axresp cfg qp).result.warnings.countP
      (fun w => w = s2DisabledMsg) =
      ((retrieval_live simFn s2resp axresp cfg qp).trace.filter
        isS2Disabled).length := by
    rw [hwarn, htrace, List.countP_append, countP_missingAbsWarning, ← h4]
    omega
  refine ⟨?_, hcountP, ?_, ?_, ?_⟩
  · rw [htrace]
    exact h5
  · rw [htrace, ← h1, ← h3]
    exact h2
  · intro hdis
    rw [htrace] at hdis
    have hge := filter_pos_of_any hdis
    rw [hcountP, htrace]
    omega
  · rw [htrace]
    exact h6

/-- Concrete configuration for the counterexamples (the default budget and
year window of `config.py`). -/
def cfgEx : RTAConfig := { max_papers := 80, min_year := 2020, max_year := 2026 }

/-- A concrete four-query plan. -/
def qpEx : QueryPlan :=
  { expanded_queries := ["a", "b", "c", "d"], must_include := [],
    exclude := [], target_subtasks := [], notes := "" }

set_option maxHeartbeats 1000000 in
/-- C3 counterexample: arXiv rate-limited (429) on every one of four
queries is *never* disabled — it is still called on the fourth query after
three rate-limit occurrences, and no disablement warning of any kind is
recorded (the breaker exists only for SemanticScholar). -/
theorem C3_arxiv_never_disabled_counterexample :
    (retrieval_live (fun _ _ => 0) (fun _ => S2Outcome.ok [])
        (fun _ => ArxivOutcome.err "HTTP Error 429: Too Many Requests")
        cfgEx qpEx).result.warnings =
      [axFailMsg "a" "HTTP Error 429: Too Many Requests",
       axFailMsg "b" "HTTP Error 429: Too Many Requests",
       axFailMsg "c" "HTTP Error 429: Too Many Requests",
       axFailMsg "d" "HTTP Error 429: Too Many Requests"] ∧
    RetEv.axCall 3 ∈ (retrieval_live (fun _ _ => 0) (fun _ => S2Outcome.ok [])
        (fun _ => ArxivOutcome.err "HTTP Error 429: Too Many Requests")
        cfgEx qpEx).trace ∧
    ((retrieval_live (fun _ _ => 0) (fun _ => S2Outcome.ok [])
        (fun _ => ArxivOutcome.err "HTTP Error 429: Too Many Requests")
        cfgEx qpEx).trace.filter isS2Disabled).length = 0 := by
  refine ⟨?_, ?_, ?_⟩ <;> decide

/-- Witness for C3 (amended): a run whose SemanticScholar source is
rate-limited on three consecutive queries; the breaker opens, exactly one
disablement warning is recorded, and SemanticScholar is not called on the
fourth query. -/
theorem C3_circuit_breaker_witness :
    ((retrieval_live (fun _ _ => 0) (fun _ => S2Outcome.http429)
        (fun _ => ArxivOutcome.ok []) cfgEx qpEx).trace.any isS2Disabled = true) ∧
    ((retrieval_live (fun _ _ => 0) (fun _ => S2Outcome.http429)
        (fun _ => ArxivOutcome.ok []) cfgEx qpEx).result.warnings.countP
      (fun w => w = s2DisabledMsg) = 1) ∧
    (RetEv.s2Call 3 ∉ (retrieval_live (fun _ _ => 0) (fun _ => S2Outcome.http429)
        (fun _ => ArxivOutcome.ok []) cfgEx qpEx).trace) := by
  have h := C3_circuit_breaker (fun _ _ => 0) (fun _ => S2Outcome.http429)
      (fun _ => ArxivOutcome.ok []) cfgEx qpEx
  refine ⟨by decide, h.2.2.2.1 (by decide), by decide⟩

/-! ### C4: near-duplicate suppression -/

/-- The pairwise guarantee the dedup loop enforces, in the direction the
code checks it: the later record's stripped title against the earlier
record's raw title. -/
def dedupRel (simFn : String → String → ℚ) (u1 u2 : PaperItem) : Prop :=
  title_sim simFn (pyStrip u2.title) u1.title < (mkRat 9 10)

theorem dedupLoop_master (simFn : String → String → ℚ) (cap : Int) :
    ∀ (l uniq : List PaperItem),
      ((uniq.length : Int) < cap) →
      uniq.Pairwise (dedupRel simFn) →
      (∀ p ∈ uniq, pyStrip p.title ≠ "") →
      ((∃ ext, dedupLoop simFn cap l uniq = uniq ++ ext ∧ ext.Sublist l) ∧
       (dedupLoop simFn cap l uniq).Pairwise (dedupRel simFn) ∧
       (∀ p ∈ dedupLoop simFn cap l uniq, pyStrip p.title ≠ "") ∧
       (((dedupLoop simFn cap l uniq).length : Int) ≤ cap) ∧
       ((((dedupLoop simFn cap l uniq).length : Int) < cap) →
         ∀ p ∈ l, p ∉ dedupLoop simFn cap l uniq →
           pyStrip p.title = "" ∨ ∃ u ∈ dedupLoop simFn cap l uniq,
             title_sim simFn (pyStrip p.title) u.title ≥ (mkRat 9 10)))
  | [], uniq => by
    intro hlen hpw htitles
    refine ⟨⟨[], by simp [dedupLoop], List.Sublist.refl []⟩, ?_, ?_, ?_, ?_⟩
    · simpa [dedupLoop] using hpw
    · simpa [dedupLoop] using htitles
    · simp only [dedupLoop]
      omega
    · intro _ p hp
      cases hp
  | p :: rest, uniq => by
    intro hlen hpw htitles
    by_cases hempty : pyStrip p.title = ""
    · have hrw : dedupLoop simFn cap (p :: rest) uniq =
          dedupLoop simFn cap rest uniq := by
        simp only [dedupLoop]
        rw [if_pos hempty]
      obtain ⟨⟨ext, hext, hsub⟩, hpw2, ht2, hle2, hmax2⟩ :=
        dedupLoop_master simFn cap rest uniq hlen hpw htitles
      rw [hrw]
      refine ⟨⟨ext, hext, hsub.cons p⟩, hpw2, ht2, hle2, ?_⟩
      intro hlt q hq hnq
      rcases List.mem_cons.mp hq with rfl | hq
      · exact Or.inl hempty
      · exact hmax2 hlt q hq hnq
    · by_cases hsim : uniq.any
          (fun u => title_sim simFn (pyStrip p.title) u.title ≥ (mkRat 9 10)) = true
      · have hrw : dedupLoop simFn cap (p :: rest) uniq =
            dedupLoop simFn cap rest uniq := by
          simp only [dedupLoop]
          rw [if_neg hempty, if_pos hsim]
        obtain ⟨⟨ext, hext, hsub⟩, hpw2, ht2, hle2, hmax2⟩ :=
          dedupLoop_master simFn cap rest uniq hlen hpw htitles
        rw [hrw]
        refine ⟨⟨ext, hext, hsub.cons p⟩, hpw2, ht2, hle2, ?_⟩
        intro hlt q hq hnq
        rcases List.mem_cons.mp hq with rfl | hq
        · obtain ⟨u, hu, husim⟩ := List.any_eq_true.mp hsim
          refine Or.inr ⟨u, ?_, by simpa using husim⟩
          rw [hext]
          exact List.mem_append_left _ hu
        · exact hmax2 hlt q hq hnq
      · have hcross : ∀ u ∈ uniq, dedupRel simFn u p := by
          intro u hu
          have := List.any_eq_false.mp (Bool.eq_false_iff.mpr hsim) u hu
          simp only [decide_eq_true_eq] at this
          exact lt_of_not_le (fun hge => this (by simpa using hge))
        have hpw2 : (uniq ++ [p]).Pairwise (dedupRel simFn) := by
          rw [List.pairwise_append]
          exact ⟨hpw, List.pairwise_singleton _ _, fun a ha b hb => by
            rw [List.mem_singleton] at hb
            subst hb
            exact hcross a ha⟩
        have ht2 : ∀ q ∈ uniq ++ [p], pyStrip q.title ≠ "" := by
          intro q hq
          rcases List.mem_append.mp hq with hq | hq
          · exact htitles q hq
          · rw [List.mem_singleton] at hq
            subst hq
            exact hempty
        by_cases hbreak : ((uniq ++ [p]).length : Int) ≥ cap
        · have hrw : dedupLoop simFn cap (p :: rest) uniq = uniq ++ [p] := by
            simp only [dedupLoop]
            rw [if_neg hempty, if_neg hsim]
            rw [if_pos hbreak]
          rw [hrw]
          refine ⟨⟨[p], rfl, ?_⟩, hpw2, ht2, ?_, ?_⟩
          · exact (List.nil_sublist rest).cons₂ p
          · simp only [List.length_append, List.length_singleton]
            push_cast
            omega
          · intro hlt
            exfalso
            omega
        · have hrw : dedupLoop simFn cap (p :: rest) uniq =
              dedupLoop simFn cap rest (uniq ++ [p]) := by
            simp only [dedupLoop]
            rw [if_neg hempty, if_neg hsim]
            rw [if_neg hbreak]
          obtain ⟨⟨ext, hext, hsub⟩, hpw3, ht3, hle3, hmax3⟩ :=
            dedupLoop_master simFn cap rest (uniq ++ [p])
              (by push_neg at hbreak; exact hbreak) hpw2 ht2
          rw [hrw]
          refine ⟨⟨p :: ext, by rw [hext, List.append_assoc]; rfl,
            hsub.cons₂ p⟩, hpw3, ht3, hle3, ?_⟩
          intro hlt q hq hnq
          rcases List.mem_cons.mp hq with rfl | hq
          · exfalso
            apply hnq
            rw [hext]
            exact List.mem_append_left _ (List.mem_append_right _ (by simp))
          · exact hmax3 hlt q hq hnq

theorem mem_of_mem_slice {k : Int} {l : List PaperItem} {p : PaperItem}
    (hp : p ∈ pySliceTo k l) : p ∈ l := by
  unfold pySliceTo at hp
  split at hp
  · exact List.take_subset _ _ hp
  · exact List.take_subset _ _ hp

theorem mem_of_mem_sortByAbstract {l : List PaperItem} {p : PaperItem}
    (hp : p ∈ sortByAbstract l) : p ∈ l := by
  unfold sortByAbstract at hp
  rcases List.mem_append.mp hp with h | h
  · exact (List.mem_filter.mp h).1
  · exact (List.mem_filter.mp h).1

theorem mem_of_mem_yearFilter {cfg : RTAConfig} {l : List PaperItem}
    {p : PaperItem} (hp : p ∈ yearFilter cfg l) : p ∈ l :=
  (List.mem_filter.mp hp).1

/-- C4 (amended): the accepted set (`uniq`) produced by the dedup loop is
a subsequence of the candidate stream whose pairs, in acceptance order,
all have checked similarity `< 0.90`; its size never exceeds
`2 × max_papers` (budget ≥ 1); when the cap was not reached, a candidate is
missing from it exactly because its stripped title is empty or because
some accepted record has similarity `≥ 0.90` to it; and the final papers
list of `retrieval_live` is drawn from this accepted set. -/
theorem C4_dedup_invariant (simFn : String → String → ℚ) (cfg : RTAConfig)
    (papers : List PaperItem) (s2resp : Nat → S2Outcome)
    (axresp : Nat → ArxivOutcome) (qp : QueryPlan)
    (hbudget : 1 ≤ cfg.max_papers) :
    ((dedupPhase simFn cfg papers).Sublist papers) ∧
    (dedupPhase simFn cfg papers).Pairwise (dedupRel simFn) ∧
    (((dedupPhase simFn cfg papers).length : Int) ≤ cfg.max_papers * 2) ∧
    ((((dedupPhase simFn cfg papers).length : Int) < cfg.max_papers * 2) →
      ∀ p ∈ papers, p ∉ dedupPhase simFn cfg papers →
        pyStrip p.title = "" ∨ ∃ u ∈ dedupPhase simFn cfg papers,
          title_sim simFn (pyStrip p.title) u.title ≥ (mkRat 9 10)) ∧
    (∀ p ∈ (retrieval_live simFn s2resp axresp cfg qp).result.papers,
      p ∈ dedupPhase simFn cfg
        (retLoop cfg s2resp axresp
          ((qp.expanded_queries.map pyStrip).filter (fun s => s ≠ "")).enum
          { warnings := [], s2_disabled := false, s2_429_count := 0,
            all_papers := [], trace := [] }).all_papers) := by
  have hcap : ((([] : List PaperItem).length : Int) < cfg.max_papers * 2) := by
    simp
    omega
  obtain ⟨⟨ext, hext, hsub⟩, hpw, _ht, hle, hmax⟩ :=
    dedupLoop_master simFn (cfg.max_papers * 2) papers [] hcap
      List.Pairwise.nil (fun p hp => absurd hp (List.not_mem_nil p))
  have hout : dedupPhase simFn cfg papers = ext := by
    unfold dedupPhase
    rw [hext]
    rfl
  refine ⟨by rw [hout]; exact hsub, hpw, hle, hmax, ?_⟩
  intro p hp
  have hpap : (retrieval_live simFn s2resp axresp cfg qp).result.papers =
      pySliceTo cfg.max_papers (sortByAbstract (yearFilter cfg
        (dedupPhase simFn cfg
          (retLoop cfg s2resp axresp
            ((qp.expanded_queries.map pyStrip).filter (fun s => s ≠ "")).enum
            { warnings := [], s2_disabled := false, s2_429_count := 0,
              all_papers := [], trace := [] }).all_papers))) := rfl
  rw [hpap] at hp
  exact mem_of_mem_yearFilter (mem_of_mem_sortByAbstract (mem_of_mem_slice hp))

/-- Three concrete papers with pairwise-dissimilar titles. -/
def pA : PaperItem := { title := "aaa" }

def pB : PaperItem := { title := "bbb" }

def pC : PaperItem := { title := "ccc" }

/-- C4 counterexample: with budget 1 (cap 2), the third candidate `pC` is
rejected even though its similarity to every accepted record is `0 < 0.90`
— rejection is *not* exactly "similarity ≥ 0.90 to an accepted record";
the cap break also drops candidates. -/
theorem C4_dedup_counterexample :
    dedupLoop (fun _ _ => 0) 2 [pA, pB, pC] [] = [pA, pB] ∧
    pC ∉ dedupLoop (fun _ _ => 0) 2 [pA, pB, pC] [] ∧
    ∀ u ∈ dedupLoop (fun _ _ => 0) 2 [pA, pB, pC] [],
      title_sim (fun _ _ => 0) (pyStrip pC.title) u.title < (mkRat 9 10) := by
  refine ⟨?_, ?_, ?_⟩ <;> decide

/-- Witness for C4 (amended) at a concrete budget and input. -/
theorem C4_dedup_invariant_witness :
    (dedupPhase (fun _ _ => 0) cfgEx [pA, pB]).Sublist [pA, pB] ∧
    ((dedupPhase (fun _ _ => 0) cfgEx [pA, pB]).length : Int) ≤
      cfgEx.max_papers * 2 :=
  let h := C4_dedup_invariant (fun _ _ => 0) cfgEx [pA, pB]
    (fun _ => S2Outcome.ok []) (fun _ => ArxivOutcome.ok []) qpEx (by decide)
  ⟨h.1, h.2.2.1⟩

/-! ### C5: year filter, abstract-first ordering, truncation -/

theorem yearFilter_mem_bounds {cfg : RTAConfig} {l : List PaperItem}
    {p : PaperItem} (hp : p ∈ yearFilter cfg l) :
    ∀ y, p.year = some y → cfg.min_year ≤ y ∧ y ≤ cfg.max_year := by
  intro y hy
  have hpred := (List.mem_filter.mp hp).2
  rw [hy] at hpred
  simp only [Bool.not_eq_true', Bool.or_eq_false_iff, decide_eq_false_iff_not,
    not_lt] at hpred
  exact ⟨hpred.1, hpred.2⟩

theorem yearFilter_keeps_min {cfg : RTAConfig} {l : List PaperItem}
    {p : PaperItem} (hy : cfg.min_year ≤ cfg.max_year) (hp : p ∈ l)
    (hmin : p.year = some cfg.min_year) : p ∈ yearFilter cfg l := by
  refine List.mem_filter.mpr ⟨hp, ?_⟩
  rw [hmin]
  simp only [Bool.not_eq_true', Bool.or_eq_false_iff, decide_eq_false_iff_not,
    not_lt]
  exact ⟨le_refl _, hy⟩

theorem yearFilter_drops_below {cfg : RTAConfig} {l : List PaperItem}
    {p : PaperItem} (hmin : p.year = some (cfg.min_year - 1)) :
    p ∉ yearFilter cfg l := by
  intro hp
  have hpred := (List.mem_filter.mp hp).2
  rw [hmin] at hpred
  simp only [Bool.not_eq_true', Bool.or_eq_false_iff, decide_eq_false_iff_not,
    not_lt] at hpred
  omega

theorem yearFilter_keeps_unknown {cfg : RTAConfig} {l : List PaperItem}
    {p : PaperItem} (hp : p ∈ l) (hnone : p.year = none) :
    p ∈ yearFilter cfg l := by
  refine List.mem_filter.mpr ⟨hp, ?_⟩
  rw [hnone]

/-- The ordering relation "no abstract-less record precedes an
abstract-bearing one". -/
def absOrder (p q : PaperItem) : Prop :=
  hasAbstract q = true → hasAbstract p = true

theorem pairwise_sortByAbstract (l : List PaperItem) :
    (sortByAbstract l).Pairwise absOrder := by
  unfold sortByAbstract
  rw [List.pairwise_append]
  refine ⟨?_, ?_, ?_⟩
  · exact List.pairwise_of_forall_mem_list
      (fun a ha _ _ _ => (List.mem_filter.mp ha).2)
  · exact List.pairwise_of_forall_mem_list (fun a _ b hb hq => by
      have := (List.mem_filter.mp hb).2
      simp only [Bool.not_eq_true'] at this
      rw [hq] at this
      cases this)
  · intro a ha b _
    exact fun _ => (List.mem_filter.mp ha).2

theorem sortByAbstract_stable (l : List PaperItem) :
    (sortByAbstract l).filter hasAbstract = l.filter hasAbstract ∧
    (sortByAbstract l).filter (fun p => !(hasAbstract p)) =
      l.filter (fun p => !(hasAbstract p)) := by
  unfold sortByAbstract
  constructor
  · rw [List.filter_append]
    have hA : (l.filter hasAbstract).filter hasAbstract =
        l.filter hasAbstract :=
      List.filter_eq_self.mpr (fun a ha => (List.mem_filter.mp ha).2)
    have hB : (l.filter (fun p => !(hasAbstract p))).filter hasAbstract = [] :=
      List.filter_eq_nil_iff.mpr (fun a ha => by
        have := (List.mem_filter.mp ha).2
        simp only [Bool.not_eq_true'] at this
        simp [this])
    rw [hA, hB, List.append_nil]
  · rw [List.filter_append]
    have hA : (l.filter hasAbstract).filter (fun p => !(hasAbstract p)) = [] :=
      List.filter_eq_nil_iff.mpr (fun a ha => by
        have := (List.mem_filter.mp ha).2
        simp [this])
    have hB : (l.filter (fun p => !(hasAbstract p))).filter
        (fun p => !(hasAbstract p)) = l.filter (fun p => !(hasAbstract p)) :=
      List.filter_eq_self.mpr (fun a ha => (List.mem_filter.mp ha).2)
    rw [hA, hB, List.nil_append]

theorem pySliceTo_sublist (k : Int) (l : List PaperItem) :
    (pySliceTo k l).Sublist l := by
  unfold pySliceTo
  split
  · exact List.take_sublist _ _
  · exact List.take_sublist _ _

theorem pySliceTo_length_le (k : Int) (l : List PaperItem) (hk : 0 ≤ k) :
    ((pySliceTo k l).length : Int) ≤ k := by
  unfold pySliceTo
  rw [if_pos hk]
  have h1 : (l.take k.toNat).length ≤ k.toNat := List.length_take_le _ _
  have h2 : ((l.take k.toNat).length : Int) ≤ (k.toNat : Int) := by
    exact_mod_cast h1
  rwa [Int.toNat_of_nonneg hk] at h2

/-- C5: the final paper list of `retrieval_live` contains no record with a
known year outside `[min_year, max_year]`; at the year-filter phase a
record with `year = min_year` is kept (for a well-formed window), one with
`year = min_year − 1` is dropped, and a record with unknown year is kept
regardless of bounds; in the final list no abstract-less record precedes an
abstract-bearing one, the sort is stable on each class, and the list is
truncated to at most the configured paper budget. -/
theorem C5_year_filter_sort_truncate (simFn : String → String → ℚ)
    (s2resp : Nat → S2Outcome) (axresp : Nat → ArxivOutcome)
    (cfg : RTAConfig) (qp : QueryPlan)
    (hy : cfg.min_year ≤ cfg.max_year) (hb : 0 ≤ cfg.max_papers) :
    (∀ p ∈ (retrieval_live simFn s2resp axresp cfg qp).result.papers,
      ∀ y, p.year = some y → cfg.min_year ≤ y ∧ y ≤ cfg.max_year) ∧
    (∀ (l : List PaperItem) (p : PaperItem), p ∈ l →
      p.year = some cfg.min_year → p ∈ yearFilter cfg l) ∧
    (∀ (l : List PaperItem) (p : PaperItem),
      p.year = some (cfg.min_year - 1) → p ∉ yearFilter cfg l) ∧
    (∀ (l : List PaperItem) (p : PaperItem), p ∈ l → p.year = none →
      p ∈ yearFilter cfg l) ∧
    (retrieval_live simFn s2resp axresp cfg qp).result.papers.Pairwise absOrder ∧
    (∀ (l : List PaperItem),
      (sortByAbstract l).filter hasAbstract = l.filter hasAbstract ∧
      (sortByAbstract l).filter (fun p => !(hasAbstract p)) =
        l.filter (fun p => !(hasAbstract p))) ∧
    (((retrieval_live simFn s2resp axresp cfg qp).result.papers.length : Int) ≤
      cfg.max_papers) := by
  have hpap : (retrieval_live simFn s2resp axresp cfg qp).result.papers =
      pySliceTo cfg.max_papers (sortByAbstract (yearFilter cfg
        (dedupPhase simFn cfg
          (retLoop cfg s2resp axresp
            ((qp.expanded_queries.map pyStrip).filter (fun s => s ≠ "")).enum
            { warnings := [], s2_disabled := false, s2_429_count := 0,
              all_papers := [], trace := [] }).all_papers))) := rfl
  refine ⟨?_, fun l p hp hm => yearFilter_keeps_min hy hp hm,
    fun l p hm => yearFilter_drops_below hm,
    fun l p hp hn => yearFilter_keeps_unknown hp hn, ?_,
    sortByAbstract_stable, ?_⟩
  · intro p hp y hyy
    rw [hpap] at hp
    have h1 := mem_of_mem_sortByAbstract (mem_of_mem_slice hp)
    exact yearFilter_mem_bounds h1 y hyy
  · rw [hpap]
    exact (pairwise_sortByAbstract _).sublist (pySliceTo_sublist _ _)
  · rw [hpap]
    exact pySliceTo_length_le _ _ hb

/-- A paper with an abstract and one without, both inside the window. -/
def pAbs : PaperItem := { title := "withabs", abstract := "text", year := some 2020 }

def pNoAbs : PaperItem := { title := "noabs", abstract := "", year := some 2022 }

/-- Witness for C5 at a concrete configuration and a concrete year-filter
input. -/
theorem C5_year_filter_sort_truncate_witness :
    (pAbs ∈ yearFilter cfgEx [pAbs]) ∧
    ((retrieval_live (fun _ _ => 0) (fun _ => S2Outcome.ok [pNoAbs, pAbs])
        (fun _ => ArxivOutcome.ok []) cfgEx qpEx).result.papers.length : Int) ≤
      cfgEx.max_papers := by
  have h := C5_year_filter_sort_truncate (fun _ _ => 0)
      (fun _ => S2Outcome.ok [pNoAbs, pAbs]) (fun _ => ArxivOutcome.ok [])
      cfgEx qpEx (by decide) (by decide)
  exact ⟨h.2.1 [pAbs] pAbs (by decide) (by decide), h.2.2.2.2.2.2⟩

/-! ## StageOrchestrator (from `src/rta/pipeline.py`)

`run_pipeline(topic, output_dir)` runs Plan → Retrieve → Cluster → Reason
in order, each inside its own `try`; a caught exception (or an empty paper
list / a `None` structuring result) logs and returns `(False, "")`.  The
stage bodies are collaborators: their outcomes are parameters.  The
`writes` field records the artifact files whose write was attempted
(`_save_json` itself swallows write errors and never fails the pipeline),
and `stagesRun` records which stage bodies were entered, in order.

Notably, `run_pipeline` never creates, updates, or persists any status
document: `run_manager.init_status`/`update_status` exist but have no
caller, so no `status.json` write appears on any path.  (The module as
shipped even fails to import — it references `run_retrieval`, which
`retrieval_live.py` does not define; the embedding models the function
body's orchestration.) -/

/-- Model of `TopicCluster` (schemas/core.py). -/
structure TopicCluster where
  cluster_id : String
  name : String
  description : String
  paper_indices : List Int := []
  keywords : List String := []
  typical_methods : List String := []
deriving DecidableEq

/-- Model of `TopicStructuringResult` (schemas/core.py). -/
structure TopicStructuringResult where
  clusters : List TopicCluster := []
  main_directions : List String := []
  recommended_pipeline : List String := []
deriving DecidableEq

/-- Observable outcome of `run_pipeline`: the returned pair, the artifact
writes attempted, and the stages entered. -/
structure PipeOut where
  success : Bool
  out_dir : String
  writes : List String
  stagesRun : List Nat
deriving DecidableEq

/-- Embedding of `run_pipeline` (pipeline.py).  A pydantic model instance
is always truthy, so `if structuring_result:` fails only for `None`
(modelled with `Option`); the stage-4 markdown write happens inside the
stage-4 `try`, so its failure also aborts with `(False, "")`. -/
def run_pipeline (mkdirO : Except String Unit)
    (planO : Except String QueryPlan)
    (retrO : Except String RetrievalResult)
    (structO : Except String (Option TopicStructuringResult))
    (reasonO : Except String ReasoningResult)
    (mdWriteO : Except String Unit)
    (output_dir : String) : PipeOut :=
  match mkdirO with
  | Except.error _ =>
    { success := false, out_dir := "", writes := [], stagesRun := [] }
  | Except.ok _ =>
    match planO with
    | Except.error _ =>
      { success := false, out_dir := "", writes := [], stagesRun := [1] }
    | Except.ok _plan =>
      match retrO with
      | Except.error _ =>
        { success := false, out_dir := "", writes := ["plan.json"],
          stagesRun := [1, 2] }
      | Except.ok retr =>
        if retr.papers.isEmpty then
          { success := false, out_dir := "",
            writes := ["plan.json", "retrieval.json"], stagesRun := [1, 2] }
        else
          match structO with
          | Except.error _ =>
            { success := false, out_dir := "",
              writes := ["plan.json", "retrieval.json"], stagesRun := [1, 2, 3] }
          | Except.ok none =>
            { success := false, out_dir := "",
              writes := ["plan.json", "retrieval.json"], stagesRun := [1, 2, 3] }
          | Except.ok (some _sr) =>
            match reasonO with
            | Except.error _ =>
              { success := false, out_dir := "",
                writes := ["plan.json", "retrieval.json", "structuring.json"],
                stagesRun := [1, 2, 3, 4] }
            | Except.ok _rep =>
              match mdWriteO with
              | Except.error _ =>
                { success := false, out_dir := "",
                  writes := ["plan.json", "retrieval.json", "structuring.json",
                    "reasoning.json"],
                  stagesRun := [1, 2, 3, 4] }
              | Except.ok _ =>
                { success := true, out_dir := output_dir,
                  writes := ["plan.json", "retrieval.json", "structuring.json",
                    "reasoning.json", "report.md"],
                  stagesRun := [1, 2, 3, 4] }

/-- C6 (amended): stages execute strictly in the order Plan, Retrieve,
Cluster, Reason — the entered stages always form a prefix of `[1,2,3,4]`
and a stage runs only when all earlier ones succeeded; on any stage
failure no later stage executes and the run aborts with `(False, "")`;
but **no status document is ever written**: `"status.json"` appears in no
write set on any path (failures are only logged; `update_status` is dead
code). -/
theorem C6_stage_order_no_status (mkdirO : Except String Unit)
    (planO : Except String QueryPlan) (retrO : Except String RetrievalResult)
    (structO : Except String (Option TopicStructuringResult))
    (reasonO : Except String ReasoningResult) (mdWriteO : Except String Unit)
    (output_dir : String) :
    (∃ k ≤ 4, (run_pipeline mkdirO planO retrO structO reasonO mdWriteO
        output_dir).stagesRun = [1, 2, 3, 4].take k) ∧
    ((run_pipeline mkdirO planO retrO structO reasonO mdWriteO
        output_dir).success = false →
      (run_pipeline mkdirO planO retrO structO reasonO mdWriteO
        output_dir).out_dir = "") ∧
    (∀ e, planO = Except.error e →
      (run_pipeline (Except.ok ()) planO retrO structO reasonO mdWriteO
        output_dir).stagesRun = [1] ∧
      (run_pipeline (Except.ok ()) planO retrO structO reasonO mdWriteO
        output_dir).success = false) ∧
    (∀ e, retrO = Except.error e →
      (run_pipeline (Except.ok ()) (Except.ok (fallbackPlan "t")) retrO structO
        reasonO mdWriteO output_dir).stagesRun = [1, 2] ∧
      (run_pipeline (Except.ok ()) (Except.ok (fallbackPlan "t")) retrO structO
        reasonO mdWriteO output_dir).success = false) ∧
    ("status.json" ∉ (run_pipeline mkdirO planO retrO structO reasonO mdWriteO
        output_dir).writes) := by
  have habort : ∀ e, planO = Except.error e →
      (run_pipeline (Except.ok ()) planO retrO structO reasonO mdWriteO
        output_dir).stagesRun = [1] ∧
      (run_pipeline (Except.ok ()) planO retrO structO reasonO mdWriteO
        output_dir).success = false := by
    intro e he
    rw [he]
    exact ⟨rfl, rfl⟩
  have habort2 : ∀ e, retrO = Except.error e →
      (run_pipeline (Except.ok ()) (Except.ok (fallbackPlan "t")) retrO structO
        reasonO mdWriteO output_dir).stagesRun = [1, 2] ∧
      (run_pipeline (Except.ok ()) (Except.ok (fallbackPlan "t")) retrO structO
        reasonO mdWriteO output_dir).success = false := by
    intro e he
    rw [he]
    exact ⟨rfl, rfl⟩
  refine ⟨?_, ?_, habort, habort2, ?_⟩ <;> unfold run_pipeline
  · rcases mkdirO with e0 | u0
    · exact ⟨0, by omega, rfl⟩
    · cases u0
      rcases planO with e1 | plan
      · exact ⟨1, by omega, rfl⟩
      · rcases retrO with e2 | retr
        · exact ⟨2, by omega, rfl⟩
        · dsimp only
          by_cases hemp : retr.papers.isEmpty = true
          · rw [if_pos hemp]
            exact ⟨2, by omega, rfl⟩
          · rw [if_neg hemp]
            rcases structO with e3 | sr
            · exact ⟨3, by omega, rfl⟩
            · rcases sr with _ | sr
              · exact ⟨3, by omega, rfl⟩
              · rcases reasonO with e4 | rep
                · exact ⟨4, by omega, rfl⟩
                · rcases mdWriteO with e5 | u5
                  · exact ⟨4, by omega, rfl⟩
                  · cases u5
                    exact ⟨4, by omega, rfl⟩
  · rcases mkdirO with e0 | u0
    · exact fun _ => rfl
    · cases u0
      rcases planO with e1 | plan
      · exact fun _ => rfl
      · rcases retrO with e2 | retr
        · exact fun _ => rfl
        · dsimp only
          by_cases hemp : retr.papers.isEmpty = true
          · rw [if_pos hemp]
            exact fun _ => rfl
          · rw [if_neg hemp]
            rcases structO with e3 | sr
            · exact fun _ => rfl
            · rcases sr with _ | sr
              · exact fun _ => rfl
              · rcases reasonO with e4 | rep
                · exact fun _ => rfl
                · rcases mdWriteO with e5 | u5
                  · exact fun _ => rfl
                  · cases u5
                    intro h
                    cases h
  · rcases mkdirO with e0 | u0
    · show "status.json" ∉ ([] : List String)
      decide
    · cases u0
      rcases planO with e1 | plan
      · show "status.json" ∉ ([] : List String)
        decide
      · rcases retrO with e2 | retr
        · show "status.json" ∉ ["plan.json"]
          decide
        · dsimp only
          by_cases hemp : retr.papers.isEmpty = true
          · rw [if_pos hemp]
            show "status.json" ∉ ["plan.json", "retrieval.json"]
            decide
          · rw [if_neg hemp]
            rcases structO with e3 | sr
            · show "status.json" ∉ ["plan.json", "retrieval.json"]
              decide
            · rcases sr with _ | sr
              · show "status.json" ∉ ["plan.json", "retrieval.json"]
                decide
              · rcases reasonO with e4 | rep
                · show "status.json" ∉
                    ["plan.json", "retrieval.json", "structuring.json"]
                  decide
                · rcases mdWriteO with e5 | u5
                  · show "status.json" ∉ ["plan.json", "retrieval.json",
                      "structuring.json", "reasoning.json"]
                    decide
                  · cases u5
                    show "status.json" ∉ ["plan.json", "retrieval.json",
                      "structuring.json", "reasoning.json", "report.md"]
                    decide

/-- C6 counterexample: a concrete run whose retrieval stage raises. The
pipeline aborts with `(False, "")`, stages 3 and 4 never run — but the
failure is *not* recorded in any persisted status document: no
`status.json` write occurs (nor on the fully successful run), refuting
"the failure is recorded in the persisted per-run status document ...
rewritten after every stage transition". -/
theorem C6_no_status_document_counterexample :
    (run_pipeline (Except.ok ()) (Except.ok (fallbackPlan "t"))
        (Except.error "HTTPError") (Except.ok none)
        (Except.error "unused") (Except.ok ()) "outputs") =
      { success := false, out_dir := "", writes := ["plan.json"],
        stagesRun := [1, 2] } ∧
    (run_pipeline (Except.ok ()) (Except.ok (fallbackPlan "t"))
        (Except.ok { queries_used := [], papers := [pA], dedup_before := 1,
                     dedup_after := 1, warnings := [] })
        (Except.ok (some {})) (Except.ok rEmptyRefs) (Except.ok ())
        "outputs").writes =
      ["plan.json", "retrieval.json", "structuring.json", "reasoning.json",
       "report.md"] := by
  exact ⟨rfl, rfl⟩

/-- Witness for C6 (amended) at concrete stage outcomes. -/
theorem C6_stage_order_no_status_witness :
    (run_pipeline (Except.ok ()) (Except.ok (fallbackPlan "t"))
        (Except.error "HTTPError") (Except.ok none) (Except.error "unused")
        (Except.ok ()) "outputs").stagesRun = [1, 2] ∧
    "status.json" ∉ (run_pipeline (Except.ok ()) (Except.ok (fallbackPlan "t"))
        (Except.error "HTTPError") (Except.ok none) (Except.error "unused")
        (Except.ok ()) "outputs").writes := by
  have h := C6_stage_order_no_status (Except.ok ()) (Except.ok (fallbackPlan "t"))
      (Except.error "HTTPError") (Except.ok none) (Except.error "unused")
      (Except.ok ()) "outputs"
  exact ⟨(h.2.2.2.1 "HTTPError" rfl).1, h.2.2.2.2⟩

end RTA
